import Mathlib

/-!
Verification of the FreeImage bitmap core (Source/FreeImage/BitmapAccess.cpp).

This file is a shallow embedding of the in-memory bitmap representation and
its lifecycle operations: the overflow-checked size calculator, bitmap
allocation, accessors, the metadata store, the clone engine, the thumbnail
setter and the palette-based color classifier.  Machine integers are
modelled as `Nat` with explicit `% 2 ^ w` where C unsigned wraparound can
occur; nullable pointers are modelled as `Option`; the caller-supplied
external pixel buffer is modelled as an address (`Nat`) into an abstract
byte memory `mem : Nat -> Nat`.
-/

set_option autoImplicit false

namespace FreeImage

/-- RGBA quad as stored in a palette entry (FIRGBA8).  Each channel is a
byte value; we keep them as `Nat` (all writes in the modelled code store
values below 256). -/
structure FIRGBA8 where
  red : Nat
  green : Nat
  blue : Nat
  alpha : Nat
deriving DecidableEq, Repr

/-- The closed set of element types (FREE_IMAGE_TYPE in FreeImage.h). -/
inductive FREE_IMAGE_TYPE where
  | FIT_UNKNOWN
  | FIT_BITMAP
  | FIT_UINT16
  | FIT_INT16
  | FIT_UINT32
  | FIT_INT32
  | FIT_FLOAT
  | FIT_DOUBLE
  | FIT_COMPLEXF
  | FIT_COMPLEX
  | FIT_RGB16
  | FIT_RGBA16
  | FIT_RGB32
  | FIT_RGBA32
  | FIT_RGBF
  | FIT_RGBAF
deriving DecidableEq, Repr

/-- Color classification results (FREE_IMAGE_COLOR_TYPE). -/
inductive FREE_IMAGE_COLOR_TYPE where
  | FIC_MINISWHITE
  | FIC_MINISBLACK
  | FIC_RGB
  | FIC_PALETTE
  | FIC_RGBALPHA
  | FIC_CMYK
  | FIC_YUV
deriving DecidableEq, Repr

/-- BITMAPINFOHEADER::biCompression value for plain RGB storage. -/
def BI_RGB : Nat := 0

/-- BITMAPINFOHEADER::biCompression value for mask-bearing (bitfield) storage. -/
def BI_BITFIELDS : Nat := 3

/-- Alignment boundary used for the bitmap backing block (FIBITMAP_ALIGNMENT). -/
def FIBITMAP_ALIGNMENT : Nat := 16

/-- sizeof(FIBITMAPINFOHEADER): the legacy 40-byte info header. -/
def sizeof_FIBITMAPINFOHEADER : Nat := 40

/-- Little-endian default red mask constant (FI_RGBA_RED_MASK). -/
def FI_RGBA_RED_MASK : Nat := 0x00FF0000

/-- Little-endian default green mask constant (FI_RGBA_GREEN_MASK). -/
def FI_RGBA_GREEN_MASK : Nat := 0x0000FF00

/-- Little-endian default blue mask constant (FI_RGBA_BLUE_MASK). -/
def FI_RGBA_BLUE_MASK : Nat := 0x000000FF

/-- Metadata model identifier of the reserved animation model
(FIMD_ANIMATION in FreeImage.h). -/
def FIMD_ANIMATION : Nat := 9

/-- Metadata model identifier of the IPTC model (FIMD_IPTC). -/
def FIMD_IPTC : Nat := 6

/-- Platform parameters of the modelled build: the bit width of `size_t`
and `sizeof(FREEIMAGEHEADER)` (which depends on pointer width and struct
padding).  All theorems below hold for every platform instance. -/
structure Platform where
  sizeBits : Nat
  szFIH : Nat
deriving DecidableEq, Repr

/-- Width in bytes of one scanline before padding
(`CalculateLine` in Utilities.h, also inlined in FreeImage_GetLine):
`((width * bpp) + 7) / 8` computed in 32-bit unsigned arithmetic.
Modelled from the spec: each scanline byte length is the ceiling of
`width*bpp/8`, and the helper lives in a header outside src/. -/
def CalculateLine (width bpp : Nat) : Nat :=
  ((width * bpp) % 2 ^ 32 + 7) % 2 ^ 32 / 8

/-- Scanline pitch padded up to a 4-byte boundary
(`CalculatePitch` in Utilities.h): `(line + 3) & ~3` in 32-bit unsigned
arithmetic; `x & ~3 = x - x % 4`.
Modelled from the spec: pitch is the line size padded to 4 bytes. -/
def CalculatePitch (line : Nat) : Nat :=
  ((line + 3) % 2 ^ 32) - ((line + 3) % 2 ^ 32) % 4

/-- Number of palette entries as a function of bit depth
(`CalculateUsedPaletteEntries` in Utilities.h).
Modelled from the spec: palette entry count is a deterministic function of
bit depth, non-zero only below 16 bpp. -/
def CalculateUsedPaletteEntries (bpp : Nat) : Nat :=
  if 1 ≤ bpp ∧ bpp ≤ 8 then 2 ^ bpp else 0

/-- The header part of the backing block size: FREEIMAGEHEADER, padding to
the alignment boundary, the info header placed so that what follows it is
aligned, palette entries, channel masks, and final padding.  This is the
value of `dib_size` in FreeImage_GetInternalImageSize just before the
pixel region is added (lines 215-224 of BitmapAccess.cpp); every C `+=`
wraps in `size_t`, hence the `% 2 ^ P.sizeBits` after each step. -/
def imageHeaderSize (P : Platform) (bpp : Nat) (need_masks : Bool) : Nat :=
  let M := 2 ^ P.sizeBits
  let d0 := P.szFIH % M
  let d1 := (d0 + (if d0 % FIBITMAP_ALIGNMENT = 0 then 0 else FIBITMAP_ALIGNMENT - d0 % FIBITMAP_ALIGNMENT)) % M
  let d2 := (d1 + (FIBITMAP_ALIGNMENT - sizeof_FIBITMAPINFOHEADER % FIBITMAP_ALIGNMENT)) % M
  let d3 := (d2 + sizeof_FIBITMAPINFOHEADER) % M
  let d4 := (d3 + 4 * CalculateUsedPaletteEntries bpp) % M
  let d5 := (d4 + (if need_masks then 4 * 3 else 0)) % M
  (d5 + (if d5 % FIBITMAP_ALIGNMENT = 0 then 0 else FIBITMAP_ALIGNMENT - d5 % FIBITMAP_ALIGNMENT)) % M

/-- FreeImage_GetInternalImageSize (BitmapAccess.cpp lines 213-257): the
exact byte size of a bitmap backing block, or the zero sentinel when the
KISS overflow check fires.  The double-precision recomputation
(`dPitch`, `dImageSize`) is modelled by exact natural arithmetic, which
coincides with IEEE double arithmetic whenever the exact result is below
`2 ^ 53` (integer values up to `2 ^ 53` are exactly representable and the
divide by `32.0` and multiply by `4.0` are exact power-of-two scalings);
the integer `size_t` computation wraps modulo `2 ^ P.sizeBits`. -/
def FreeImage_GetInternalImageSize (P : Platform) (header_only : Bool)
    (width height bpp : Nat) (need_masks : Bool) : Nat :=
  let M := 2 ^ P.sizeBits
  let d := imageHeaderSize P bpp need_masks
  if header_only then d
  else
    let header_size := d
    let dib_size := (d + CalculatePitch (CalculateLine width bpp) * height) % M
    let dPitch := (bpp * width + 31) / 32 * 4
    let dImageSize := header_size + dPitch * height
    if dImageSize ≠ dib_size then 0
    else if (M - 1) - 8 * FIBITMAP_ALIGNMENT < dImageSize then 0
    else dib_size

/-!  Association lists.  `std::map` instances (`TAGMAP`, `METADATAMAP`) are
modelled as association lists with unique keys; `alInsert` is
insert-or-assign, `alErase` removes the entry, `alLookup` finds it. -/

/-- Lookup in an association list (models `std::map::find`). -/
def alLookup {α β : Type} [DecidableEq α] : List (α × β) → α → Option β
  | [], _ => none
  | (k, v) :: rest, a => if k = a then some v else alLookup rest a

/-- Insert-or-assign in an association list (models `map[key] = value`). -/
def alInsert {α β : Type} [DecidableEq α] : List (α × β) → α → β → List (α × β)
  | [], a, b => [(a, b)]
  | (k, v) :: rest, a, b => if k = a then (a, b) :: rest else (k, v) :: alInsert rest a b

/-- Erase a key from an association list (models `std::map::erase`). -/
def alErase {α β : Type} [DecidableEq α] : List (α × β) → α → List (α × β)
  | [], _ => []
  | (k, v) :: rest, a => if k = a then rest else (k, v) :: alErase rest a

/-- A metadata tag (FITAG, declared in FreeImageTag.h, outside src/).
Modelled from the spec: a tag is a typed, counted metadata value with a
key, a numeric ID, an element type, a declared element count, a declared
byte length and a raw payload. -/
structure FITAG where
  key : Option String
  id : Nat
  ttype : Nat
  count : Nat
  length : Nat
  value : List Nat
deriving DecidableEq, Repr

/-- Byte width of one element of each tag data type
(FreeImage_TagDataWidth in FreeImageTag.cpp, outside src/).
Modelled from the spec: every tag type has a fixed element width, with the
contract `count * elementWidth == totalByteLength`.  The table follows the
TIFF-style type numbering used by FreeImage. -/
def FreeImage_TagDataWidth (ttype : Nat) : Nat :=
  match ttype with
  | 1 => 1   -- BYTE
  | 2 => 1   -- ASCII
  | 3 => 2   -- SHORT
  | 4 => 4   -- LONG
  | 5 => 8   -- RATIONAL
  | 6 => 1   -- SBYTE
  | 7 => 1   -- UNDEFINED
  | 8 => 2   -- SSHORT
  | 9 => 4   -- SLONG
  | 10 => 8  -- SRATIONAL
  | 11 => 4  -- FLOAT
  | 12 => 8  -- DOUBLE
  | 13 => 4  -- IFD
  | 14 => 4  -- PALETTE
  | 16 => 8  -- LONG8
  | 17 => 8  -- SLONG8
  | 18 => 8  -- IFD8
  | _ => 0

/-- Deep copy of a tag (FreeImage_CloneTag in FreeImageTag.cpp, outside
src/).  Modelled from the spec: the clone is an independent tag with equal
key, type, count, length and payload, which at the value level is the tag
itself. -/
def FreeImage_CloneTag (t : FITAG) : FITAG := t

/-- Tag map of one metadata model: `std::map<std::string, FITAG*>`. -/
def TAGMAP : Type := List (String × FITAG)
deriving instance DecidableEq, Repr for TAGMAP

/-- Metadata map: `std::map<int, TAGMAP*>` keyed by model identifier. -/
def METADATAMAP : Type := List (Nat × TAGMAP)
deriving instance DecidableEq, Repr for METADATAMAP

/-- The ICC profile slot (FIICCPROFILE): flag bitset, declared byte size
and the owned byte buffer (`none` models a null data pointer). -/
structure FIICCPROFILE where
  flags : Nat
  size : Nat
  data : Option (List Nat)
deriving DecidableEq, Repr

/-- The legacy info block (FIBITMAPINFOHEADER).  All fields are stored
unsigned; `biWidth`/`biHeight` hold the absolute dimensions. -/
structure FIBITMAPINFOHEADER where
  biSize : Nat
  biWidth : Nat
  biHeight : Nat
  biPlanes : Nat
  biCompression : Nat
  biBitCount : Nat
  biClrUsed : Nat
  biClrImportant : Nat
  biXPelsPerMeter : Nat
  biYPelsPerMeter : Nat
deriving DecidableEq, Repr

/-- The channel mask block (FREEIMAGERGBMASKS), stored after the info
header for mask-bearing 16-bit bitmaps. -/
structure FREEIMAGERGBMASKS where
  red_mask : Nat
  green_mask : Nat
  blue_mask : Nat
deriving DecidableEq, Repr

/-- Contents of one bitmap backing block together with its handle state,
except for the owned thumbnail (FREEIMAGEHEADER + info block + palette +
masks + pixel region).  `addr` is the address of the aligned backing block
returned by the aligned allocator, `blockSize` the byte size it was
allocated with; `pixels` holds the owned pixel region as scanlines of
`pitch` bytes each (empty when the block is header-only);
`external_bits`/`external_pitch` model the wrapped user buffer pointer and
pitch (`none`/0 when pixels are owned). -/
structure BitmapData where
  addr : Nat
  blockSize : Nat
  type : FREE_IMAGE_TYPE
  bkgnd_color : FIRGBA8
  transparent_table : List Nat
  transparency_count : Nat
  transparent : Bool
  iccProfile : FIICCPROFILE
  metadata : METADATAMAP
  has_pixels : Bool
  external_bits : Option Nat
  external_pitch : Nat
  info : FIBITMAPINFOHEADER
  palette : List FIRGBA8
  masks : FREEIMAGERGBMASKS
  pixels : List (List Nat)
deriving Repr

/-- A bitmap handle (FIBITMAP): the block data plus the owned optional
thumbnail, which is itself a bitmap. -/
inductive FIBITMAP where
  | mk (data : BitmapData) (thumbnail : Option FIBITMAP)

/-- The block data of a handle. -/
def FIBITMAP.data : FIBITMAP → BitmapData
  | .mk d _ => d

/-- The owned thumbnail of a handle. -/
def FIBITMAP.thumbnail : FIBITMAP → Option FIBITMAP
  | .mk _ t => t

/-!  Null-tolerant accessors.  A `FIBITMAP *` argument is an
`Option FIBITMAP`; `none` models the null handle. -/

/-- FreeImage_GetImageType: element type, FIT_UNKNOWN for null. -/
def FreeImage_GetImageType (dib : Option FIBITMAP) : FREE_IMAGE_TYPE :=
  match dib with
  | none => .FIT_UNKNOWN
  | some b => b.data.type

/-- FreeImage_HasPixels: the has_pixels flag, FALSE for null. -/
def FreeImage_HasPixels (dib : Option FIBITMAP) : Bool :=
  match dib with
  | none => false
  | some b => b.data.has_pixels

/-- FreeImage_GetInfoHeader: the info block, null for a null handle (the
pointer into the block is modelled by the block content itself). -/
def FreeImage_GetInfoHeader (dib : Option FIBITMAP) : Option FIBITMAPINFOHEADER :=
  match dib with
  | none => none
  | some b => some b.data.info

/-- FreeImage_GetWidth: biWidth, 0 for null. -/
def FreeImage_GetWidth (dib : Option FIBITMAP) : Nat :=
  match dib with
  | none => 0
  | some b => b.data.info.biWidth

/-- FreeImage_GetHeight: biHeight, 0 for null. -/
def FreeImage_GetHeight (dib : Option FIBITMAP) : Nat :=
  match dib with
  | none => 0
  | some b => b.data.info.biHeight

/-- FreeImage_GetBPP: biBitCount, 0 for null. -/
def FreeImage_GetBPP (dib : Option FIBITMAP) : Nat :=
  match dib with
  | none => 0
  | some b => b.data.info.biBitCount

/-- FreeImage_GetLine: `(width * bpp + 7) / 8` in 32-bit unsigned
arithmetic, 0 for null. -/
def FreeImage_GetLine (dib : Option FIBITMAP) : Nat :=
  match dib with
  | none => 0
  | some _ => CalculateLine (FreeImage_GetWidth dib) (FreeImage_GetBPP dib)

/-- FreeImage_GetPitch (lines 1163-1170): the stored external pitch for a
wrapped buffer, otherwise the line size padded to 4 bytes
(`GetLine + 3 & ~3`); 0 for null. -/
def FreeImage_GetPitch (dib : Option FIBITMAP) : Nat :=
  match dib with
  | none => 0
  | some b =>
    if b.data.external_bits.isSome then b.data.external_pitch
    else CalculatePitch (FreeImage_GetLine dib)

/-- FreeImage_GetColorsUsed: biClrUsed, 0 for null. -/
def FreeImage_GetColorsUsed (dib : Option FIBITMAP) : Nat :=
  match dib with
  | none => 0
  | some b => b.data.info.biClrUsed

/-- FreeImage_GetPalette: the palette region for bit depths below 16,
null otherwise or for a null handle. -/
def FreeImage_GetPalette (dib : Option FIBITMAP) : Option (List FIRGBA8) :=
  match dib with
  | none => none
  | some b => if FreeImage_GetBPP dib < 16 then some b.data.palette else none

/-- FreeImage_HasRGBMasks: whether biCompression is BI_BITFIELDS; FALSE
for null. -/
def FreeImage_HasRGBMasks (dib : Option FIBITMAP) : Bool :=
  match dib with
  | none => false
  | some b => b.data.info.biCompression = BI_BITFIELDS

/-- FreeImage_GetRGBMasks: the mask block when present, null otherwise. -/
def FreeImage_GetRGBMasks (dib : Option FIBITMAP) : Option FREEIMAGERGBMASKS :=
  match dib with
  | none => none
  | some b => if FreeImage_HasRGBMasks dib then some b.data.masks else none

/-- FreeImage_GetRedMask: stored mask for mask-bearing generic bitmaps,
the default constant for 24/32 bpp, 0 otherwise (also for null). -/
def FreeImage_GetRedMask (dib : Option FIBITMAP) : Nat :=
  match FreeImage_GetImageType dib with
  | .FIT_BITMAP =>
    match FreeImage_GetRGBMasks dib with
    | some m => m.red_mask
    | none => if 24 ≤ FreeImage_GetBPP dib then FI_RGBA_RED_MASK else 0
  | _ => 0

/-- FreeImage_GetGreenMask: see FreeImage_GetRedMask. -/
def FreeImage_GetGreenMask (dib : Option FIBITMAP) : Nat :=
  match FreeImage_GetImageType dib with
  | .FIT_BITMAP =>
    match FreeImage_GetRGBMasks dib with
    | some m => m.green_mask
    | none => if 24 ≤ FreeImage_GetBPP dib then FI_RGBA_GREEN_MASK else 0
  | _ => 0

/-- FreeImage_GetBlueMask: see FreeImage_GetRedMask. -/
def FreeImage_GetBlueMask (dib : Option FIBITMAP) : Nat :=
  match FreeImage_GetImageType dib with
  | .FIT_BITMAP =>
    match FreeImage_GetRGBMasks dib with
    | some m => m.blue_mask
    | none => if 24 ≤ FreeImage_GetBPP dib then FI_RGBA_BLUE_MASK else 0
  | _ => 0

/-- FreeImage_GetThumbnail: the owned thumbnail, null for null. -/
def FreeImage_GetThumbnail (dib : Option FIBITMAP) : Option FIBITMAP :=
  match dib with
  | none => none
  | some b => b.thumbnail

/-- FreeImage_GetBits (lines 656-672): null when the bitmap has no
pixels; the stored external pointer for a wrapped buffer; otherwise the
in-block pixel address, computed from the info-header address plus info
header, palette and mask sizes, aligned up to the alignment boundary.
The result is a byte address (`Nat`). -/
def FreeImage_GetBits (P : Platform) (dib : Option FIBITMAP) : Option Nat :=
  if FreeImage_HasPixels dib = false then none
  else
    match dib with
    | none => none
    | some b =>
      match b.data.external_bits with
      | some ext => some ext
      | none =>
        let lp0 := b.data.addr + P.szFIH
        let lp1 := lp0 + (if lp0 % FIBITMAP_ALIGNMENT = 0 then 0 else FIBITMAP_ALIGNMENT - lp0 % FIBITMAP_ALIGNMENT)
        let lp2 := lp1 + (FIBITMAP_ALIGNMENT - sizeof_FIBITMAPINFOHEADER % FIBITMAP_ALIGNMENT)
        let lp3 := lp2 + sizeof_FIBITMAPINFOHEADER + 4 * FreeImage_GetColorsUsed dib
        let lp4 := lp3 + (if FreeImage_HasRGBMasks dib then 4 * 3 else 0)
        some (lp4 + (if lp4 % FIBITMAP_ALIGNMENT = 0 then 0 else FIBITMAP_ALIGNMENT - lp4 % FIBITMAP_ALIGNMENT))

/-!  Allocation (FreeImage_AllocateBitmap, lines 296-487).  The aligned
allocator is modelled by an `addr` parameter: the address of the block the
allocator returns.  Allocation exhaustion is outside the model; the only
failure sources are the input checks, an unsupported element type and the
zero sentinel of the size calculator. -/

/-- The bit-depth adjustment switch of FreeImage_AllocateBitmap
(lines 316-379): for FIT_BITMAP a depth outside {1,2,4,8,16,24,32} is
coerced to 8 and depth 16 requests channel masks; every other supported
type forces its native bit width (`8 * sizeof(element)`); FIT_UNKNOWN is
unsupported.  Returns the effective `(bpp, need_masks)` or `none`. -/
def allocBppMasks (type : FREE_IMAGE_TYPE) (bpp : Int) : Option (Nat × Bool) :=
  match type with
  | .FIT_BITMAP =>
    if bpp = 1 ∨ bpp = 2 ∨ bpp = 4 ∨ bpp = 8 then some (bpp.toNat, false)
    else if bpp = 16 then some (16, true)
    else if bpp = 24 ∨ bpp = 32 then some (bpp.toNat, false)
    else some (8, false)
  | .FIT_UINT16 => some (8 * 2, false)
  | .FIT_INT16 => some (8 * 2, false)
  | .FIT_UINT32 => some (8 * 4, false)
  | .FIT_INT32 => some (8 * 4, false)
  | .FIT_FLOAT => some (8 * 4, false)
  | .FIT_DOUBLE => some (8 * 8, false)
  | .FIT_COMPLEXF => some (8 * 8, false)
  | .FIT_COMPLEX => some (8 * 16, false)
  | .FIT_RGB16 => some (8 * 6, false)
  | .FIT_RGBA16 => some (8 * 8, false)
  | .FIT_RGB32 => some (8 * 12, false)
  | .FIT_RGBA32 => some (8 * 16, false)
  | .FIT_RGBF => some (8 * 12, false)
  | .FIT_RGBAF => some (8 * 16, false)
  | .FIT_UNKNOWN => none

/-- Native bit width of each non-generic element type, as the spec states
it ("bpp is fixed to that type's native bit width regardless of the
caller's request").  Modelled from the spec, to be compared against the
bit depth the allocator stores. -/
def specNativeBitWidth (type : FREE_IMAGE_TYPE) : Nat :=
  match type with
  | .FIT_UINT16 => 16
  | .FIT_INT16 => 16
  | .FIT_UINT32 => 32
  | .FIT_INT32 => 32
  | .FIT_FLOAT => 32
  | .FIT_DOUBLE => 64
  | .FIT_COMPLEXF => 64
  | .FIT_COMPLEX => 128
  | .FIT_RGB16 => 48
  | .FIT_RGBA16 => 64
  | .FIT_RGB32 => 96
  | .FIT_RGBA32 => 128
  | .FIT_RGBF => 96
  | .FIT_RGBAF => 128
  | _ => 0

/-- FreeImage_AllocateBitmap (lines 296-487).  Dimensions are C `int`
arguments whose absolute value is taken; a supplied external buffer with
zero pitch fails; the effective bit depth and mask need come from
`allocBppMasks`; the block size comes from the overflow-checked size
calculator, forcing header-only when wrapping a user buffer.  On success
the zero-filled block is written with header defaults (opaque transparency
table, 72-dpi resolution, default greyscale palette at 8 bpp, caller masks
when mask-bearing).  The handle records the block address and size. -/
def FreeImage_AllocateBitmap (P : Platform) (addr : Nat) (header_only : Bool)
    (ext_bits : Option Nat) (ext_pitch : Nat) (type : FREE_IMAGE_TYPE)
    (width height bpp : Int) (red_mask green_mask blue_mask : Nat) :
    Option FIBITMAP :=
  let width := width.natAbs
  let height := height.natAbs
  if ¬(0 < width ∧ 0 < height) then none
  else if ext_bits.isSome ∧ ext_pitch = 0 then none
  else
    match allocBppMasks type bpp with
    | none => none
    | some (bpp, need_masks) =>
      let dib_size := FreeImage_GetInternalImageSize P (header_only || ext_bits.isSome)
          width height bpp need_masks
      if dib_size = 0 then none
      else some (.mk {
        addr := addr
        blockSize := dib_size
        type := type
        bkgnd_color := ⟨0, 0, 0, 0⟩
        transparent_table := List.replicate 256 0xFF
        transparency_count := 0
        transparent := false
        iccProfile := ⟨0, 0, none⟩
        metadata := []
        has_pixels := !header_only
        external_bits := ext_bits
        external_pitch := ext_pitch
        info := {
          biSize := sizeof_FIBITMAPINFOHEADER
          biWidth := width
          biHeight := height
          biPlanes := 1
          biCompression := if need_masks then BI_BITFIELDS else BI_RGB
          biBitCount := bpp
          biClrUsed := CalculateUsedPaletteEntries bpp
          biClrImportant := CalculateUsedPaletteEntries bpp
          biXPelsPerMeter := 2835
          biYPelsPerMeter := 2835 }
        palette :=
          if bpp = 8 then (List.range 256).map (fun i => ⟨i, i, i, 0⟩)
          else List.replicate (CalculateUsedPaletteEntries bpp) ⟨0, 0, 0, 0⟩
        masks := if need_masks then ⟨red_mask, green_mask, blue_mask⟩ else ⟨0, 0, 0⟩
        pixels :=
          if header_only || ext_bits.isSome then []
          else List.replicate height (List.replicate (CalculatePitch (CalculateLine width bpp)) 0)
      } none)

/-- FreeImage_AllocateHeaderT (lines 494-497): allocation without an
external buffer. -/
def FreeImage_AllocateHeaderT (P : Platform) (addr : Nat) (header_only : Bool)
    (type : FREE_IMAGE_TYPE) (width height bpp : Int)
    (red_mask green_mask blue_mask : Nat) : Option FIBITMAP :=
  FreeImage_AllocateBitmap P addr header_only none 0 type width height bpp
    red_mask green_mask blue_mask

/-- FreeImage_AllocateHeaderForBits (lines 489-492): full allocation
wrapping an external pixel buffer. -/
def FreeImage_AllocateHeaderForBits (P : Platform) (addr : Nat)
    (ext_bits : Option Nat) (ext_pitch : Nat) (type : FREE_IMAGE_TYPE)
    (width height bpp : Int) (red_mask green_mask blue_mask : Nat) :
    Option FIBITMAP :=
  FreeImage_AllocateBitmap P addr false ext_bits ext_pitch type width height bpp
    red_mask green_mask blue_mask

/-!  Metadata store.  `FreeImage_SetMetadata` mutates the metadata map of
the handle; the model returns the updated map together with the FIBOOL
result and whether a diagnostic message was emitted through the
diagnostic sink (FreeImage_OutputMessageProc).  The external
tag-identifier lookup collaborator (TagLib::getTagID) is a read-only
function parameter `tagLib`, returning a numeric ID or the -1 sentinel. -/

/-- The body of FreeImage_SetMetadata (lines 1396-1485) acting on the
metadata map of a non-null handle.  With a key and a tag: an absent model
is first created empty; the tag key is assigned; a tag whose declared
`count * elementWidth` differs from its byte length is rejected with a
diagnostic; for the IPTC model the key is resolved to a numeric ID (cast
to uint16); the clone of the tag replaces any previous entry.  With a key
and no tag the entry is deleted.  With no key the whole model is
destroyed.  Returns (result, updated map, diagnostic emitted). -/
def setMetadataCore (tagLib : String → Int) (model : Nat) (key : Option String)
    (tag : Option FITAG) (metadata : METADATAMAP) : Bool × METADATAMAP × Bool :=
  let tagmap? := alLookup metadata model
  match key with
  | some k =>
    if tag.isNone ∧ tagmap?.isNone then
      -- remove a tag from an unknown tagmap, nothing to do
      (true, metadata, false)
    else
      let tagmap := tagmap?.getD []
      -- this model does not exist: create it
      let metadata := if tagmap?.isNone then alInsert metadata model [] else metadata
      match tag with
      | some t =>
        let t := { t with key := some k }
        if t.count * FreeImage_TagDataWidth t.ttype ≠ t.length then
          -- "Invalid data count for tag" diagnostic
          (false, metadata, true)
        else
          let t := if model = FIMD_IPTC then { t with id := ((tagLib k).emod (2 ^ 16)).toNat } else t
          (true, alInsert metadata model (alInsert tagmap k (FreeImage_CloneTag t)), false)
      | none =>
        (true, alInsert metadata model (alErase tagmap k), false)
  | none =>
    match tagmap? with
    | some _ => (true, alErase metadata model, false)
    | none => (true, metadata, false)

/-- FreeImage_SetMetadata on an optional handle: FALSE for null,
otherwise the core acting on the handle's metadata map.  Returns
(result, updated handle, diagnostic emitted). -/
def FreeImage_SetMetadata (tagLib : String → Int) (model : Nat)
    (dib : Option FIBITMAP) (key : Option String) (tag : Option FITAG) :
    Bool × Option FIBITMAP × Bool :=
  match dib with
  | none => (false, none, false)
  | some (.mk d th) =>
    let r := setMetadataCore tagLib model key tag d.metadata
    (r.1, some (.mk { d with metadata := r.2.1 } th), r.2.2)

/-- FreeImage_GetMetadata (lines 1487-1509) restricted to the lookup it
performs: the tag stored under `key` in `model`, or none. -/
def FreeImage_GetMetadata (model : Nat) (dib : Option FIBITMAP) (key : String) :
    Option FITAG :=
  match dib with
  | none => none
  | some b =>
    match alLookup b.data.metadata model with
    | none => none
    | some tagmap => alLookup tagmap key

/-- Deep copy of one tag map, as built by the copy loops of
FreeImage_Clone (lines 621-627) and FreeImage_CloneMetadata
(lines 1373-1379): a fresh map holding a clone of every tag under its
key. -/
def cloneTagMap (tm : TAGMAP) : TAGMAP :=
  tm.map (fun kt => (kt.1, FreeImage_CloneTag kt.2))

/-- Deep copy of a whole metadata map, as built by the model loop of
FreeImage_Clone (lines 614-633): every model of the source map is
installed with a deep copy of its tag map. -/
def cloneMetadataMap (md : METADATAMAP) : METADATAMAP :=
  md.map (fun mtm => (mtm.1, cloneTagMap mtm.2))

/-- The model loop of FreeImage_CloneMetadata (lines 1358-1385) acting on
the destination map: every source model except FIMD_ANIMATION is
installed as a deep copy, after destroying (via the SetMetadata destroy
path) any destination model with the same identifier. -/
def cloneMetadataLoop (tagLib : String → Int) :
    METADATAMAP → METADATAMAP → METADATAMAP
  | [], dstmd => dstmd
  | (model, src_tagmap) :: rest, dstmd =>
    if model = FIMD_ANIMATION then cloneMetadataLoop tagLib rest dstmd
    else
      let dstmd :=
        if (alLookup dstmd model).isSome then (setMetadataCore tagLib model none none dstmd).2.1
        else dstmd
      cloneMetadataLoop tagLib rest (alInsert dstmd model (cloneTagMap src_tagmap))

/-- FreeImage_CloneMetadata (lines 1347-1392): FALSE when either handle
is null; otherwise runs the model loop on the destination metadata map
and copies the horizontal and vertical resolution from source to
destination.  Returns (result, updated destination). -/
def FreeImage_CloneMetadata (tagLib : String → Int)
    (dst src : Option FIBITMAP) : Bool × Option FIBITMAP :=
  match dst, src with
  | some (.mk dd dth), some srcb =>
    let md := cloneMetadataLoop tagLib srcb.data.metadata dd.metadata
    (true, some (.mk { dd with
      metadata := md
      info := { dd.info with
        biXPelsPerMeter := srcb.data.info.biXPelsPerMeter
        biYPelsPerMeter := srcb.data.info.biYPelsPerMeter } } dth))
  | _, _ => (false, dst)

/-- Metadata model identifier of the main Exif model (FIMD_EXIF_MAIN). -/
def FIMD_EXIF_MAIN : Nat := 1

/-- FreeImage_DestroyICCProfile (lines 1125-1139): frees the profile
bytes while preserving the flags, and removes the "InterColorProfile" tag
from the main Exif metadata model. -/
def FreeImage_DestroyICCProfile (tagLib : String → Int) (d : BitmapData) : BitmapData :=
  let d := { d with iccProfile := { d.iccProfile with data := none, size := 0 } }
  { d with metadata :=
      (setMetadataCore tagLib FIMD_EXIF_MAIN (some "InterColorProfile") none d.metadata).2.1 }

/-- FreeImage_CreateICCProfile (lines 1109-1123): destroys the previous
profile (flags preserved), then installs a copy of `size` bytes when
`size` is non-zero. -/
def FreeImage_CreateICCProfile (tagLib : String → Int) (d : BitmapData)
    (data : Option (List Nat)) (size : Nat) : BitmapData :=
  let d := FreeImage_DestroyICCProfile tagLib d
  if size ≠ 0 then
    { d with iccProfile := { d.iccProfile with
        data := some ((data.getD []).take size), size := size } }
  else d

/-- The metadata copy loop of FreeImage_Clone (lines 614-633): every
source model is installed into the destination map (which starts out
empty in a fresh allocation) as a deep copy of its tag map. -/
def cloneMetadataInto : METADATAMAP → METADATAMAP → METADATAMAP
  | dst, [] => dst
  | dst, (m, tm) :: rest => cloneMetadataInto (alInsert dst m (cloneTagMap tm)) rest

/-- FreeImage_Clone on a non-null handle (lines 551-652).  `fresh` is the
address the aligned allocator hands to the nested allocation; the
thumbnail clone allocates at `fresh + 1`.  `mem` is the abstract byte
memory holding any wrapped external pixel buffer.  Steps, as in the
source: read geometry and masks from the source; allocate a new header
with matching header-only state; copy the backing block (info header,
palette, masks, and the pixel region unless the source is header-only or
wraps a user buffer); reset and rebuild the handle-owned resources (ICC
bytes with preserved flags, an independent metadata map, a deep-cloned
thumbnail via the SetThumbnail semantics, cleared external-buffer
fields); finally, for a wrapped source buffer, copy its scanlines
(source-pitch strides, line-width bounded) into the owned pixel region.
The SetThumbnail call is inlined: the fresh handle's thumbnail is null,
so the pointer-equality early exit applies exactly when the source has no
thumbnail. -/
def CloneB (P : Platform) (mem : Nat → Nat) (tagLib : String → Int)
    (fresh : Nat) (x : FIBITMAP) : Option FIBITMAP :=
  match x with
  | .mk d th =>
    let width := d.info.biWidth
    let height := d.info.biHeight
    let bpp := d.info.biBitCount
    let ext_bits := d.external_bits
    let header_only := !d.has_pixels
    match FreeImage_AllocateHeaderT P fresh header_only d.type width height bpp
        (FreeImage_GetRedMask (some (.mk d th)))
        (FreeImage_GetGreenMask (some (.mk d th)))
        (FreeImage_GetBlueMask (some (.mk d th))) with
    | none => none
    | some (.mk nd _) =>
      -- memcpy(new_dib->data, dib->data, dib_size), where dib_size is the
      -- header-only size when the source wraps a user buffer; then the
      -- ICC slot is zeroed and the metadata / thumbnail / external links
      -- of the new header are restored or reset
      let copied : BitmapData := { nd with
        type := d.type
        bkgnd_color := d.bkgnd_color
        transparent_table := d.transparent_table
        transparency_count := d.transparency_count
        transparent := d.transparent
        has_pixels := d.has_pixels
        info := d.info
        palette := d.palette
        masks := d.masks
        pixels := if header_only || ext_bits.isSome then nd.pixels else d.pixels
        iccProfile := ⟨0, 0, none⟩
        metadata := nd.metadata
        external_bits := none
        external_pitch := 0 }
      -- copy possible ICC profile, preserving the flag bits
      let copied := FreeImage_CreateICCProfile tagLib copied d.iccProfile.data d.iccProfile.size
      let copied := { copied with iccProfile :=
        { copied.iccProfile with flags := d.iccProfile.flags } }
      -- copy metadata models
      let copied := { copied with metadata := cloneMetadataInto copied.metadata d.metadata }
      -- copy the thumbnail (FreeImage_SetThumbnail(new_dib, GetThumbnail(dib)))
      let newThumb : Option FIBITMAP :=
        match th with
        | some t => if t.data.has_pixels then CloneB P mem tagLib (fresh + 1) t else none
        | none => none
      -- copy user provided pixel buffer (if any), scanline by scanline
      let copied :=
        match ext_bits with
        | some ea =>
          let pitch := d.external_pitch
          let linesize := CalculateLine width bpp
          { copied with pixels :=
              (List.range height).map (fun y =>
                (List.range (CalculatePitch linesize)).map (fun i =>
                  if i < linesize then mem (ea + y * pitch + i) else 0)) }
        | none => copied
      some (.mk copied newThumb)
termination_by structural x

/-- FreeImage_Clone: null in, null out; otherwise `CloneB`. -/
def FreeImage_Clone (P : Platform) (mem : Nat → Nat) (tagLib : String → Int)
    (fresh : Nat) (dib : Option FIBITMAP) : Option FIBITMAP :=
  match dib with
  | none => none
  | some b => CloneB P mem tagLib fresh b

/-- C pointer equality of two optional thumbnail handles.  Under the
allocator model every live handle carries the distinct address of its
backing block, so pointer equality is address equality (and two nulls are
equal). -/
def ptrEqThumb : Option FIBITMAP → Option FIBITMAP → Bool
  | none, none => true
  | some a, some b => a.data.addr == b.data.addr
  | _, _ => false

/-- FreeImage_SetThumbnail (lines 683-697): FALSE on a null handle; TRUE
with no state change when the argument is the handle already stored as
the thumbnail (pointer equality); otherwise the current thumbnail is
unloaded and replaced by a deep clone of the argument when it has pixels,
or cleared to null when it does not. -/
def FreeImage_SetThumbnail (P : Platform) (mem : Nat → Nat) (tagLib : String → Int)
    (fresh : Nat) (dib thumbnail : Option FIBITMAP) : Bool × Option FIBITMAP :=
  match dib with
  | none => (false, none)
  | some (.mk d th) =>
    if ptrEqThumb th thumbnail then (true, some (.mk d th))
    else (true, some (.mk d
      (if FreeImage_HasPixels thumbnail then FreeImage_Clone P mem tagLib fresh thumbnail
       else none)))

/-- The scan loop of the 4/8 bpp branch of FreeImage_GetColorType2
(lines 781-807), structurally recursive on the number `k` of remaining
palette entries (the loop runs `i` from 0 while `i < ncolors`, so `k`
starts at `ncolors` and `i + k = ncolors` at every call).  A non-grey
entry, or a grey entry matching neither the forward ramp `entry[i] == i`
nor the reversed ramp `entry[i] == ncolors-i-1`, yields FIC_PALETTE; a
reversed-ramp entry clears the `minisblack` flag; reaching the end yields
FIC_MINISBLACK or FIC_MINISWHITE by that flag. -/
def paletteScanAux (ncolors : Nat) (pal : Nat → FIRGBA8) :
    Nat → Nat → Bool → FREE_IMAGE_COLOR_TYPE
  | 0, _, minisblack => if minisblack then .FIC_MINISBLACK else .FIC_MINISWHITE
  | k + 1, i, minisblack =>
    let rgb := pal i
    if rgb.red ≠ rgb.green ∨ rgb.red ≠ rgb.blue then .FIC_PALETTE
    else if rgb.red ≠ i then
      if ncolors - i - 1 ≠ rgb.red then .FIC_PALETTE
      else paletteScanAux ncolors pal k (i + 1) false
    else paletteScanAux ncolors pal k (i + 1) minisblack

/-- The 4/8 bpp branch of FreeImage_GetColorType2: scan the `ncolors`
used palette entries starting at index 0 with the `minisblack` flag
set. -/
def FreeImage_GetColorType2_pal48 (ncolors : Nat) (pal : Nat → FIRGBA8) :
    FREE_IMAGE_COLOR_TYPE :=
  paletteScanAux ncolors pal ncolors 0 true

/-!  Association-list lemmas shared by the metadata proofs. -/

theorem alLookup_alInsert_self {α β : Type} [DecidableEq α]
    (l : List (α × β)) (a : α) (b : β) :
    alLookup (alInsert l a b) a = some b := by
  induction l with
  | nil => simp [alInsert, alLookup]
  | cons kv rest ih =>
    obtain ⟨k, v⟩ := kv
    by_cases h : k = a
    · subst h; simp [alInsert, alLookup]
    · simp [alInsert, alLookup, h, ih]

theorem alLookup_alInsert_ne {α β : Type} [DecidableEq α]
    (l : List (α × β)) (a c : α) (b : β) (hne : a ≠ c) :
    alLookup (alInsert l a b) c = alLookup l c := by
  induction l with
  | nil => simp [alInsert, alLookup, hne]
  | cons kv rest ih =>
    obtain ⟨k, v⟩ := kv
    by_cases h : k = a
    · subst h; simp [alInsert, alLookup, hne]
    · by_cases h2 : k = c
      · subst h2; simp [alInsert, alLookup, h]
      · simp [alInsert, alLookup, h, h2, ih]

theorem alLookup_alErase_ne {α β : Type} [DecidableEq α]
    (l : List (α × β)) (a c : α) (hne : a ≠ c) :
    alLookup (alErase l a) c = alLookup l c := by
  induction l with
  | nil => simp [alErase]
  | cons kv rest ih =>
    obtain ⟨k, v⟩ := kv
    by_cases h : k = a
    · subst h; simp [alErase, alLookup, hne]
    · by_cases h2 : k = c
      · subst h2; simp [alErase, alLookup, h]
      · simp [alErase, alLookup, h, h2, ih]

theorem alLookup_eq_none_of_not_mem {α β : Type} [DecidableEq α]
    (l : List (α × β)) (a : α) (h : a ∉ l.map Prod.fst) :
    alLookup l a = none := by
  induction l with
  | nil => rfl
  | cons kv rest ih =>
    obtain ⟨k, v⟩ := kv
    simp only [List.map_cons, List.mem_cons, not_or] at h
    have hk : k ≠ a := fun he => h.1 he.symm
    simp [alLookup, hk, ih h.2]

/-- Claim C8: each listed accessor, applied to a null handle, returns a
null pointer or a zero/false value rather than failing: Width, Height,
BitsPerPixel, LineBytes, PitchBytes, ColorsUsed, Palette, InfoBlock,
PixelPointer, HasPixels, HasChannelMasks, RedMask, GreenMask and
BlueMask. -/
theorem null_handle_accessors_zero :
    FreeImage_GetWidth none = 0 ∧
    FreeImage_GetHeight none = 0 ∧
    FreeImage_GetBPP none = 0 ∧
    FreeImage_GetLine none = 0 ∧
    FreeImage_GetPitch none = 0 ∧
    FreeImage_GetColorsUsed none = 0 ∧
    FreeImage_GetPalette none = none ∧
    FreeImage_GetInfoHeader none = none ∧
    (∀ P : Platform, FreeImage_GetBits P none = none) ∧
    FreeImage_HasPixels none = false ∧
    FreeImage_HasRGBMasks none = false ∧
    FreeImage_GetRedMask none = 0 ∧
    FreeImage_GetGreenMask none = 0 ∧
    FreeImage_GetBlueMask none = 0 :=
  ⟨rfl, rfl, rfl, rfl, rfl, rfl, rfl, rfl, fun _ => rfl, rfl, rfl, rfl, rfl, rfl⟩

/-- Claim C10: for every non-null bitmap handle, SetThumbnail applied to
the very handle currently stored as the bitmap's thumbnail returns TRUE
and leaves the bitmap's entire state unchanged (the stored thumbnail is
neither unloaded nor replaced by a clone). -/
theorem set_thumbnail_self_noop (P : Platform) (mem : Nat → Nat)
    (tagLib : String → Int) (fresh : Nat) (d : BitmapData) (th : Option FIBITMAP) :
    FreeImage_SetThumbnail P mem tagLib fresh (some (.mk d th)) th =
      (true, some (.mk d th)) := by
  have h : ptrEqThumb th th = true := by
    cases th with
    | none => rfl
    | some a => simp [ptrEqThumb]
  simp [FreeImage_SetThumbnail, h]

/-- Claim C3: for a full (non-header-only) size request, when the exact
(double-precision) recomputation `header + floor((bpp*width+31)/32)*4*height`
disagrees with the wrapped `size_t` total, or exceeds the maximum
representable size minus eight alignments, the size calculator returns
the zero-size failure sentinel.  The hypothesis `h53` is the regime in
which exact natural arithmetic models IEEE double arithmetic. -/
theorem internal_image_size_overflow_zero (P : Platform)
    (width height bpp : Nat) (need_masks : Bool)
    (h53 : imageHeaderSize P bpp need_masks + (bpp * width + 31) / 32 * 4 * height < 2 ^ 53)
    (hbad : imageHeaderSize P bpp need_masks + (bpp * width + 31) / 32 * 4 * height ≠
        (imageHeaderSize P bpp need_masks + CalculatePitch (CalculateLine width bpp) * height)
          % 2 ^ P.sizeBits
      ∨ (2 ^ P.sizeBits - 1) - 8 * FIBITMAP_ALIGNMENT <
        imageHeaderSize P bpp need_masks + (bpp * width + 31) / 32 * 4 * height) :
    FreeImage_GetInternalImageSize P false width height bpp need_masks = 0 := by
  unfold FreeImage_GetInternalImageSize
  simp only [Bool.false_eq_true, if_false]
  split_ifs with h1 h2
  · rfl
  · rfl
  · exfalso
    rcases hbad with hne | hgt
    · exact h1 hne
    · exact h2 hgt

/-- Witness for C3: the spec's concrete instance, width = height =
100000 at 32 bpp on a platform with a 32-bit `size_t` (header size 304),
satisfies the hypotheses and yields the zero sentinel. -/
theorem internal_image_size_overflow_zero_witness :
    (imageHeaderSize ⟨32, 304⟩ 32 false + (32 * 100000 + 31) / 32 * 4 * 100000 < 2 ^ 53) ∧
    FreeImage_GetInternalImageSize ⟨32, 304⟩ false 100000 100000 32 false = 0 :=
  ⟨by decide,
   internal_image_size_overflow_zero ⟨32, 304⟩ 100000 100000 32 false
     (by decide) (Or.inl (by decide))⟩

/-!  Claim C2: SetMetadata with a malformed tag payload. -/

/-- The rejection path of setMetadataCore: with a key and a tag whose
declared `count * elementWidth` differs from its byte length, the result
is FALSE with a diagnostic, and the map is unchanged except that an
absent model has been created empty. -/
theorem setMetadataCore_reject (tagLib : String → Int) (model : Nat)
    (k : String) (t : FITAG) (md : METADATAMAP)
    (hbad : t.count * FreeImage_TagDataWidth t.ttype ≠ t.length) :
    setMetadataCore tagLib model (some k) (some t) md =
      (false, (if (alLookup md model).isSome then md else alInsert md model []), true) := by
  cases h : alLookup md model with
  | none => simp [setMetadataCore, h, hbad]
  | some tm => simp [setMetadataCore, h, hbad]

/-- Concrete bitmap data used by the C2 scenarios: an empty metadata
map on an otherwise ordinary 24-bpp handle. -/
def c2Bitmap : BitmapData :=
  { addr := 0
    blockSize := 416
    type := .FIT_BITMAP
    bkgnd_color := ⟨0, 0, 0, 0⟩
    transparent_table := List.replicate 256 0xFF
    transparency_count := 0
    transparent := false
    iccProfile := ⟨0, 0, none⟩
    metadata := []
    has_pixels := true
    external_bits := none
    external_pitch := 0
    info := ⟨40, 1, 1, 1, 0, 24, 0, 0, 2835, 2835⟩
    palette := []
    masks := ⟨0, 0, 0⟩
    pixels := [[0, 0, 0, 0]] }

/-- A malformed tag: type BYTE (element width 1), declared count 2, but
declared byte length 3. -/
def c2BadTag : FITAG := ⟨none, 0, 1, 2, 3, [7, 7, 7]⟩

/-- Counterexample for C2 as frozen: rejecting the malformed tag on a
handle whose metadata map has no entry for model 0 returns the failure
result with a diagnostic, but the metadata map does NOT stay completely
unchanged: the set of model entries grows by an empty tag map for model
0. -/
theorem set_metadata_reject_creates_model :
    (FreeImage_SetMetadata (fun _ => -1) 0 (some (.mk c2Bitmap none))
        (some "X") (some c2BadTag)).1 = false ∧
    (FreeImage_SetMetadata (fun _ => -1) 0 (some (.mk c2Bitmap none))
        (some "X") (some c2BadTag)).2.2 = true ∧
    c2Bitmap.metadata = [] ∧
    ((FreeImage_SetMetadata (fun _ => -1) 0 (some (.mk c2Bitmap none))
        (some "X") (some c2BadTag)).2.1.map (fun b => b.data.metadata)) =
      some [(0, [])] := by
  refine ⟨rfl, rfl, rfl, rfl⟩

/-- Claim C2 as amended: rejecting a tag whose declared count times the
element width of its type differs from its declared byte length returns
the failure result, emits a diagnostic, inserts or removes no tag and
leaves every existing model's tag map unchanged — but when the addressed
model had no entry in the metadata map, an empty tag map for that model
is created and remains in the map. -/
theorem set_metadata_reject_no_tag_mutation (tagLib : String → Int) (model : Nat)
    (d : BitmapData) (th : Option FIBITMAP) (k : String) (t : FITAG)
    (hbad : t.count * FreeImage_TagDataWidth t.ttype ≠ t.length) :
    (FreeImage_SetMetadata tagLib model (some (.mk d th)) (some k) (some t)).1 = false ∧
    (FreeImage_SetMetadata tagLib model (some (.mk d th)) (some k) (some t)).2.2 = true ∧
    ∀ b, (FreeImage_SetMetadata tagLib model (some (.mk d th)) (some k) (some t)).2.1 = some b →
      (∀ m, m ≠ model → alLookup b.data.metadata m = alLookup d.metadata m) ∧
      (∀ tm, alLookup d.metadata model = some tm → alLookup b.data.metadata model = some tm) ∧
      (alLookup d.metadata model = none → alLookup b.data.metadata model = some []) ∧
      b.data.info = d.info ∧ b.data.pixels = d.pixels ∧
      b.data.iccProfile = d.iccProfile ∧ b.thumbnail = th := by
  have hcore := setMetadataCore_reject tagLib model k t d.metadata hbad
  refine ⟨?_, ?_, ?_⟩
  · simp [FreeImage_SetMetadata, hcore]
  · simp [FreeImage_SetMetadata, hcore]
  · intro b hb
    simp only [FreeImage_SetMetadata, hcore] at hb
    obtain ⟨rfl⟩ : FIBITMAP.mk
        { d with metadata := if (alLookup d.metadata model).isSome then d.metadata
                             else alInsert d.metadata model [] } th = b := by
      exact Option.some.inj hb
    refine ⟨?_, ?_, ?_, rfl, rfl, rfl, rfl⟩
    · intro m hm
      cases hl : alLookup d.metadata model with
      | none =>
        simp only [FIBITMAP.data, hl, Option.isSome_none, Bool.false_eq_true, if_false]
        exact alLookup_alInsert_ne d.metadata model m [] (fun he => hm he.symm)
      | some tm => simp [FIBITMAP.data, hl]
    · intro tm hl
      simp [FIBITMAP.data, hl]
    · intro hl
      simp only [FIBITMAP.data, hl, Option.isSome_none, Bool.false_eq_true, if_false]
      exact alLookup_alInsert_self d.metadata model []

/-- Witness for the amended C2: the concrete malformed-tag scenario with
model 5 already present and model 0 absent. -/
theorem set_metadata_reject_no_tag_mutation_witness :
    (c2BadTag.count * FreeImage_TagDataWidth c2BadTag.ttype ≠ c2BadTag.length) ∧
    (FreeImage_SetMetadata (fun _ => -1) 0 (some (.mk c2Bitmap none))
        (some "X") (some c2BadTag)).1 = false := by
  have h := set_metadata_reject_no_tag_mutation (fun _ => -1) 0 c2Bitmap none "X" c2BadTag
    (by decide)
  exact ⟨by decide, h.1⟩

/-!  Claim C7: CloneMetadata. -/

/-- The destroy path of setMetadataCore: with no key and an existing
model, the model entry is erased from the map. -/
theorem setMetadataCore_destroy_of_isSome (tagLib : String → Int) (model : Nat)
    (md : METADATAMAP) (h : (alLookup md model).isSome = true) :
    (setMetadataCore tagLib model none none md).2.1 = alErase md model := by
  cases hl : alLookup md model with
  | none => rw [hl] at h; simp at h
  | some tm => simp [setMetadataCore, hl]

/-- Lookup characterization of the CloneMetadata model loop: a model
present in the source and different from FIMD_ANIMATION ends up mapped to
the deep copy of its source tag map (regardless of any previous
destination content); every other model keeps its destination content. -/
theorem cloneMetadataLoop_lookup (tagLib : String → Int) :
    ∀ (src dstmd : METADATAMAP), (src.map Prod.fst).Nodup → ∀ m : Nat,
    alLookup (cloneMetadataLoop tagLib src dstmd) m =
      if m ≠ FIMD_ANIMATION ∧ (alLookup src m).isSome = true
      then (alLookup src m).map cloneTagMap
      else alLookup dstmd m := by
  intro src
  induction src with
  | nil =>
    intro dstmd _ m
    simp [cloneMetadataLoop, alLookup]
  | cons kv rest ih =>
    intro dstmd hnodup m
    obtain ⟨model, tm⟩ := kv
    simp only [List.map_cons, List.nodup_cons] at hnodup
    obtain ⟨hmem, hnd⟩ := hnodup
    by_cases hanim : model = FIMD_ANIMATION
    · subst hanim
      have hstep : cloneMetadataLoop tagLib ((FIMD_ANIMATION, tm) :: rest) dstmd =
          cloneMetadataLoop tagLib rest dstmd := by
        simp [cloneMetadataLoop]
      rw [hstep, ih dstmd hnd m]
      by_cases hm : m = FIMD_ANIMATION
      · subst hm
        simp
      · have hcons : alLookup ((FIMD_ANIMATION, tm) :: rest) m = alLookup rest m := by
          simp only [alLookup]
          rw [if_neg (fun h : FIMD_ANIMATION = m => hm h.symm)]
        rw [hcons]
    · simp only [cloneMetadataLoop, if_neg hanim]
      set dstmd2 := if (alLookup dstmd model).isSome
        then (setMetadataCore tagLib model none none dstmd).2.1 else dstmd with hd2
      rw [ih _ hnd m]
      have hd2m : ∀ x, x ≠ model → alLookup dstmd2 x = alLookup dstmd x := by
        intro x hx
        rw [hd2]
        split_ifs with hs
        · rw [setMetadataCore_destroy_of_isSome tagLib model dstmd hs]
          exact alLookup_alErase_ne dstmd model x (fun he => hx he.symm)
        · rfl
      by_cases hm : m = model
      · subst hm
        have hrest : alLookup rest m = none :=
          alLookup_eq_none_of_not_mem rest m hmem
        have hcons : alLookup ((m, tm) :: rest) m = some tm := by
          simp [alLookup]
        rw [hrest, hcons]
        simp only [Option.isSome_none, Bool.false_eq_true, and_false, if_false]
        rw [if_pos ⟨hanim, rfl⟩]
        exact alLookup_alInsert_self dstmd2 m (cloneTagMap tm)
      · have hcons : alLookup ((model, tm) :: rest) m = alLookup rest m := by
          simp only [alLookup]
          rw [if_neg (fun h : model = m => hm h.symm)]
        rw [hcons]
        have hins : alLookup (alInsert dstmd2 model (cloneTagMap tm)) m = alLookup dstmd m := by
          rw [alLookup_alInsert_ne dstmd2 model m (cloneTagMap tm) (fun he => hm he.symm)]
          exact hd2m m hm
        rw [hins]

/-- A deep tag-map copy is the tag map itself at the value level. -/
theorem cloneTagMap_eq (tm : TAGMAP) : cloneTagMap tm = tm := by
  simp [cloneTagMap, FreeImage_CloneTag]

/-- Claim C7: for every pair of non-null handles, CloneMetadata returns
TRUE and installs into the destination a deep copy of every source model
except the reserved animation model, replacing (never merging with) any
existing destination model of the same identifier; models absent from the
source — and the animation model — keep the destination's prior content;
and the source's horizontal and vertical resolution is copied into the
destination. -/
theorem clone_metadata_replaces_models (tagLib : String → Int)
    (dd : BitmapData) (dth : Option FIBITMAP) (srcb : FIBITMAP)
    (hnodup : (srcb.data.metadata.map Prod.fst).Nodup) :
    (FreeImage_CloneMetadata tagLib (some (.mk dd dth)) (some srcb)).1 = true ∧
    ∀ b, (FreeImage_CloneMetadata tagLib (some (.mk dd dth)) (some srcb)).2 = some b →
      (∀ m tm, m ≠ FIMD_ANIMATION → alLookup srcb.data.metadata m = some tm →
        alLookup b.data.metadata m = some tm) ∧
      alLookup b.data.metadata FIMD_ANIMATION = alLookup dd.metadata FIMD_ANIMATION ∧
      (∀ m, alLookup srcb.data.metadata m = none →
        alLookup b.data.metadata m = alLookup dd.metadata m) ∧
      b.data.info.biXPelsPerMeter = srcb.data.info.biXPelsPerMeter ∧
      b.data.info.biYPelsPerMeter = srcb.data.info.biYPelsPerMeter := by
  constructor
  · rfl
  · intro b hb
    have hb2 := Option.some.inj hb
    have hmeta : b.data.metadata = cloneMetadataLoop tagLib srcb.data.metadata dd.metadata := by
      rw [← hb2]; rfl
    have hx : b.data.info.biXPelsPerMeter = srcb.data.info.biXPelsPerMeter := by
      rw [← hb2]; rfl
    have hy : b.data.info.biYPelsPerMeter = srcb.data.info.biYPelsPerMeter := by
      rw [← hb2]; rfl
    have hlook := cloneMetadataLoop_lookup tagLib srcb.data.metadata dd.metadata hnodup
    refine ⟨?_, ?_, ?_, hx, hy⟩
    · intro m tm hm hsrc
      rw [hmeta, hlook m, if_pos ⟨hm, by rw [hsrc]; rfl⟩, hsrc]
      simp [cloneTagMap_eq]
    · rw [hmeta, hlook FIMD_ANIMATION]
      simp
    · intro m hsrc
      rw [hmeta, hlook m, hsrc]
      simp

/-- Witness for C7: a concrete source carrying an animation model (9), a
regular model (2) colliding with existing destination content, and a
destination-only model (5). -/
theorem clone_metadata_replaces_models_witness :
    (([(9, [("frame", (⟨some "frame", 0, 1, 1, 1, [1]⟩ : FITAG))]),
       (2, [("k", (⟨some "k", 0, 1, 2, 2, [1, 2]⟩ : FITAG))])].map Prod.fst).Nodup) ∧
    (FreeImage_CloneMetadata (fun _ => -1)
      (some (.mk { c2Bitmap with metadata :=
        [(2, [("old", (⟨some "old", 0, 1, 1, 1, [9]⟩ : FITAG))]),
         (5, [("z", (⟨some "z", 0, 1, 1, 1, [5]⟩ : FITAG))])] } none))
      (some (.mk { c2Bitmap with metadata :=
        [(9, [("frame", (⟨some "frame", 0, 1, 1, 1, [1]⟩ : FITAG))]),
         (2, [("k", (⟨some "k", 0, 1, 2, 2, [1, 2]⟩ : FITAG))])] } none))).1 = true := by
  have h := clone_metadata_replaces_models (fun _ => -1)
    { c2Bitmap with metadata :=
        [(2, [("old", (⟨some "old", 0, 1, 1, 1, [9]⟩ : FITAG))]),
         (5, [("z", (⟨some "z", 0, 1, 1, 1, [5]⟩ : FITAG))])] }
    none
    (.mk { c2Bitmap with metadata :=
        [(9, [("frame", (⟨some "frame", 0, 1, 1, 1, [1]⟩ : FITAG))]),
         (2, [("k", (⟨some "k", 0, 1, 2, 2, [1, 2]⟩ : FITAG))])] } none)
    (by decide)
  exact ⟨by decide, h.1⟩

/-!  Inversion of a successful allocation. -/

/-- Successful allocation fully determines the produced handle: the
effective depth and mask flag come from `allocBppMasks`, the input checks
passed, the block size is non-zero, and every stored field is the one the
allocator writes. -/
theorem allocate_some_inv (P : Platform) (addr : Nat) (ho : Bool)
    (ext : Option Nat) (ep : Nat) (ty : FREE_IMAGE_TYPE) (w h bpp : Int)
    (r g bl : Nat) (b : FIBITMAP)
    (hsome : FreeImage_AllocateBitmap P addr ho ext ep ty w h bpp r g bl = some b) :
    ∃ nbpp masks, allocBppMasks ty bpp = some (nbpp, masks) ∧
      FreeImage_GetInternalImageSize P (ho || ext.isSome) w.natAbs h.natAbs nbpp masks ≠ 0 ∧
      0 < w.natAbs ∧ 0 < h.natAbs ∧ ¬(ext.isSome ∧ ep = 0) ∧
      b = .mk {
        addr := addr
        blockSize := FreeImage_GetInternalImageSize P (ho || ext.isSome) w.natAbs h.natAbs nbpp masks
        type := ty
        bkgnd_color := ⟨0, 0, 0, 0⟩
        transparent_table := List.replicate 256 0xFF
        transparency_count := 0
        transparent := false
        iccProfile := ⟨0, 0, none⟩
        metadata := []
        has_pixels := !ho
        external_bits := ext
        external_pitch := ep
        info := {
          biSize := sizeof_FIBITMAPINFOHEADER
          biWidth := w.natAbs
          biHeight := h.natAbs
          biPlanes := 1
          biCompression := if masks then BI_BITFIELDS else BI_RGB
          biBitCount := nbpp
          biClrUsed := CalculateUsedPaletteEntries nbpp
          biClrImportant := CalculateUsedPaletteEntries nbpp
          biXPelsPerMeter := 2835
          biYPelsPerMeter := 2835 }
        palette :=
          if nbpp = 8 then (List.range 256).map (fun i => ⟨i, i, i, 0⟩)
          else List.replicate (CalculateUsedPaletteEntries nbpp) ⟨0, 0, 0, 0⟩
        masks := if masks then ⟨r, g, bl⟩ else ⟨0, 0, 0⟩
        pixels :=
          if ho || ext.isSome then []
          else List.replicate h.natAbs (List.replicate (CalculatePitch (CalculateLine w.natAbs nbpp)) 0)
      } none := by
  cases hm : allocBppMasks ty bpp with
  | none =>
    simp only [FreeImage_AllocateBitmap, hm] at hsome
    split at hsome
    · exact Option.noConfusion hsome
    · split at hsome
      · exact Option.noConfusion hsome
      · exact Option.noConfusion hsome
  | some pr =>
    obtain ⟨nbpp, masks⟩ := pr
    simp only [FreeImage_AllocateBitmap, hm] at hsome
    split at hsome
    · exact Option.noConfusion hsome
    next hc1 =>
      split at hsome
      · exact Option.noConfusion hsome
      next hc2 =>
        split at hsome
        · exact Option.noConfusion hsome
        next hc3 =>
          refine ⟨nbpp, masks, rfl, hc3, ?_, ?_, hc2, (Option.some.inj hsome).symm⟩
          · exact (not_not.mp hc1).1
          · exact (not_not.mp hc1).2

/-!  Claim C5: the bit-depth policy of the allocator. -/

/-- For every supported non-generic element type the adjustment switch
yields that type's native bit width with no mask request, regardless of
the requested depth. -/
theorem allocBppMasks_nonbitmap (ty : FREE_IMAGE_TYPE) (h1 : ty ≠ .FIT_BITMAP)
    (h2 : ty ≠ .FIT_UNKNOWN) (bpp : Int) :
    allocBppMasks ty bpp = some (specNativeBitWidth ty, false) := by
  cases ty <;> simp_all [allocBppMasks, specNativeBitWidth]

/-- Claim C5: in Allocate, a generic-bitmap depth outside
{1,2,4,8,16,24,32} is coerced to 8; depth 16 enables channel masks,
storing exactly the caller-supplied red/green/blue masks with the
compression mode set to the mask-bearing value; every other supported
element type stores its native bit width regardless of the request; and
the unsupported element type makes Allocate fail. -/
theorem allocate_bpp_policy :
    (∀ (P : Platform) (addr : Nat) (ho : Bool) (ext : Option Nat) (ep : Nat)
        (w h bpp : Int) (r g bl : Nat) (b : FIBITMAP),
      ¬(bpp = 1 ∨ bpp = 2 ∨ bpp = 4 ∨ bpp = 8 ∨ bpp = 16 ∨ bpp = 24 ∨ bpp = 32) →
      FreeImage_AllocateBitmap P addr ho ext ep .FIT_BITMAP w h bpp r g bl = some b →
      FreeImage_GetBPP (some b) = 8) ∧
    (∀ (P : Platform) (addr : Nat) (ho : Bool) (ext : Option Nat) (ep : Nat)
        (w h : Int) (r g bl : Nat) (b : FIBITMAP),
      FreeImage_AllocateBitmap P addr ho ext ep .FIT_BITMAP w h 16 r g bl = some b →
      FreeImage_GetBPP (some b) = 16 ∧
      FreeImage_HasRGBMasks (some b) = true ∧
      b.data.info.biCompression = BI_BITFIELDS ∧
      FreeImage_GetRedMask (some b) = r ∧
      FreeImage_GetGreenMask (some b) = g ∧
      FreeImage_GetBlueMask (some b) = bl) ∧
    (∀ (P : Platform) (addr : Nat) (ho : Bool) (ext : Option Nat) (ep : Nat)
        (ty : FREE_IMAGE_TYPE) (w h bpp : Int) (r g bl : Nat) (b : FIBITMAP),
      ty ≠ .FIT_BITMAP → ty ≠ .FIT_UNKNOWN →
      FreeImage_AllocateBitmap P addr ho ext ep ty w h bpp r g bl = some b →
      FreeImage_GetBPP (some b) = specNativeBitWidth ty) ∧
    (∀ (P : Platform) (addr : Nat) (ho : Bool) (ext : Option Nat) (ep : Nat)
        (w h bpp : Int) (r g bl : Nat),
      FreeImage_AllocateBitmap P addr ho ext ep .FIT_UNKNOWN w h bpp r g bl = none) := by
  refine ⟨?_, ?_, ?_, ?_⟩
  · intro P addr ho ext ep w h bpp r g bl b hout hsome
    obtain ⟨nbpp, masks, hm, _, _, _, _, hb⟩ :=
      allocate_some_inv P addr ho ext ep .FIT_BITMAP w h bpp r g bl b hsome
    push_neg at hout
    obtain ⟨h1, h2, h4, h8, h16, h24, h32⟩ := hout
    rw [show allocBppMasks .FIT_BITMAP bpp = some (8, false) by
      simp [allocBppMasks, h1, h2, h4, h8, h16, h24, h32]] at hm
    have hnb : nbpp = 8 := (Prod.ext_iff.mp (Option.some.inj hm).symm).1
    subst hnb
    subst hb
    rfl
  · intro P addr ho ext ep w h r g bl b hsome
    obtain ⟨nbpp, masks, hm, _, _, _, _, hb⟩ :=
      allocate_some_inv P addr ho ext ep .FIT_BITMAP w h 16 r g bl b hsome
    rw [show allocBppMasks .FIT_BITMAP 16 = some (16, true) by decide] at hm
    have hnb : nbpp = 16 := (Prod.ext_iff.mp (Option.some.inj hm).symm).1
    have hmk : masks = true := (Prod.ext_iff.mp (Option.some.inj hm).symm).2
    subst hnb
    subst hmk
    subst hb
    exact ⟨rfl, rfl, rfl, rfl, rfl, rfl⟩
  · intro P addr ho ext ep ty w h bpp r g bl b hty1 hty2 hsome
    obtain ⟨nbpp, masks, hm, _, _, _, _, hb⟩ :=
      allocate_some_inv P addr ho ext ep ty w h bpp r g bl b hsome
    rw [allocBppMasks_nonbitmap ty hty1 hty2 bpp] at hm
    have hnb : nbpp = specNativeBitWidth ty := (Prod.ext_iff.mp (Option.some.inj hm).symm).1
    subst hnb
    subst hb
    rfl
  · intro P addr ho ext ep w h bpp r g bl
    simp [FreeImage_AllocateBitmap, allocBppMasks]

/-- Platform instance used by the concrete witnesses: 64-bit `size_t`,
304-byte FREEIMAGEHEADER. -/
def demoPlatform : Platform := ⟨64, 304⟩

/-- Witness for C5: depth 7 is coerced to 8 on a concrete 3x3 generic
bitmap; depth 16 stores the caller masks; a 16-bit unsigned allocation
stores 16 bpp although 99 was requested; allocating FIT_UNKNOWN fails. -/
theorem allocate_bpp_policy_witness :
    (¬((7 : Int) = 1 ∨ (7 : Int) = 2 ∨ (7 : Int) = 4 ∨ (7 : Int) = 8 ∨
       (7 : Int) = 16 ∨ (7 : Int) = 24 ∨ (7 : Int) = 32)) ∧
    FreeImage_GetBPP (FreeImage_AllocateBitmap demoPlatform 0 false none 0 .FIT_BITMAP 3 3 7 0 0 0) = 8 ∧
    FreeImage_GetRedMask (FreeImage_AllocateBitmap demoPlatform 0 false none 0 .FIT_BITMAP 3 3 16 63488 2016 31) = 63488 ∧
    FreeImage_GetBPP (FreeImage_AllocateBitmap demoPlatform 0 false none 0 .FIT_UINT16 3 3 99 0 0 0) = 16 ∧
    FreeImage_AllocateBitmap demoPlatform 0 false none 0 .FIT_UNKNOWN 3 3 8 0 0 0 = none := by
  have hs1 : (FreeImage_AllocateBitmap demoPlatform 0 false none 0 .FIT_BITMAP 3 3 7 0 0 0).isSome = true := by
    decide
  obtain ⟨b1, hb1⟩ := Option.isSome_iff_exists.mp hs1
  have hs2 : (FreeImage_AllocateBitmap demoPlatform 0 false none 0 .FIT_BITMAP 3 3 16 63488 2016 31).isSome = true := by
    decide
  obtain ⟨b2, hb2⟩ := Option.isSome_iff_exists.mp hs2
  have hs3 : (FreeImage_AllocateBitmap demoPlatform 0 false none 0 .FIT_UINT16 3 3 99 0 0 0).isSome = true := by
    decide
  obtain ⟨b3, hb3⟩ := Option.isSome_iff_exists.mp hs3
  refine ⟨by decide, ?_, ?_, ?_, ?_⟩
  · rw [hb1]
    exact allocate_bpp_policy.1 demoPlatform 0 false none 0 3 3 7 0 0 0 b1 (by decide) hb1
  · rw [hb2]
    exact (allocate_bpp_policy.2.1 demoPlatform 0 false none 0 3 3 63488 2016 31 b2 hb2).2.2.2.1
  · rw [hb3]
    exact allocate_bpp_policy.2.2.1 demoPlatform 0 false none 0 .FIT_UINT16 3 3 99 0 0 0 b3
      (by decide) (by decide) hb3
  · exact allocate_bpp_policy.2.2.2 demoPlatform 0 false none 0 3 3 8 0 0 0

/-!  Claim C6: pitch alignment. -/

/-- The padded pitch is always a multiple of 4. -/
theorem CalculatePitch_mod4 (line : Nat) : CalculatePitch line % 4 = 0 := by
  unfold CalculatePitch
  omega

/-- The line size is bounded well below the 32-bit wrap point. -/
theorem CalculateLine_lt (w bpp : Nat) : CalculateLine w bpp < 2 ^ 29 := by
  unfold CalculateLine
  omega

/-- The padded pitch dominates the line size. -/
theorem le_CalculatePitch (line : Nat) (hl : line < 2 ^ 29) :
    line ≤ CalculatePitch line := by
  unfold CalculatePitch
  omega

/-- Claim C6: every successful generic-bitmap allocation with internally
owned pixels satisfies `PitchBytes % 4 = 0` and `LineBytes ≤ PitchBytes`;
a bitmap wrapping an external pixel buffer reports the caller-given pitch
verbatim (which may be unaligned). -/
theorem allocate_pitch_alignment :
    (∀ (P : Platform) (addr : Nat) (ho : Bool) (w h bpp : Int) (r g bl : Nat) (b : FIBITMAP),
      FreeImage_AllocateBitmap P addr ho none 0 .FIT_BITMAP w h bpp r g bl = some b →
      FreeImage_GetPitch (some b) % 4 = 0 ∧
      FreeImage_GetLine (some b) ≤ FreeImage_GetPitch (some b)) ∧
    (∀ (P : Platform) (addr ba ep : Nat) (ty : FREE_IMAGE_TYPE) (w h bpp : Int)
        (r g bl : Nat) (b : FIBITMAP),
      FreeImage_AllocateBitmap P addr false (some ba) ep ty w h bpp r g bl = some b →
      FreeImage_GetPitch (some b) = ep) := by
  constructor
  · intro P addr ho w h bpp r g bl b hsome
    obtain ⟨nbpp, masks, hm, _, _, _, _, hb⟩ :=
      allocate_some_inv P addr ho none 0 .FIT_BITMAP w h bpp r g bl b hsome
    subst hb
    refine ⟨?_, ?_⟩
    · show CalculatePitch (CalculateLine w.natAbs nbpp) % 4 = 0
      exact CalculatePitch_mod4 _
    · show CalculateLine w.natAbs nbpp ≤ CalculatePitch (CalculateLine w.natAbs nbpp)
      exact le_CalculatePitch _ (CalculateLine_lt _ _)
  · intro P addr ba ep ty w h bpp r g bl b hsome
    obtain ⟨nbpp, masks, hm, _, _, _, _, hb⟩ :=
      allocate_some_inv P addr false (some ba) ep ty w h bpp r g bl b hsome
    subst hb
    rfl

/-- Witness for C6: a concrete 3x3 1-bpp owned allocation (line 1, pitch
4) and a concrete wrapped-buffer allocation with the unaligned pitch 7. -/
theorem allocate_pitch_alignment_witness :
    FreeImage_GetPitch (FreeImage_AllocateBitmap demoPlatform 0 false none 0 .FIT_BITMAP 3 3 1 0 0 0) % 4 = 0 ∧
    FreeImage_GetLine (FreeImage_AllocateBitmap demoPlatform 0 false none 0 .FIT_BITMAP 3 3 1 0 0 0) ≤
      FreeImage_GetPitch (FreeImage_AllocateBitmap demoPlatform 0 false none 0 .FIT_BITMAP 3 3 1 0 0 0) ∧
    FreeImage_GetPitch (FreeImage_AllocateBitmap demoPlatform 0 false (some 5000) 7 .FIT_BITMAP 2 2 24 0 0 0) = 7 := by
  have hs1 : (FreeImage_AllocateBitmap demoPlatform 0 false none 0 .FIT_BITMAP 3 3 1 0 0 0).isSome = true := by
    decide
  obtain ⟨b1, hb1⟩ := Option.isSome_iff_exists.mp hs1
  have hs2 : (FreeImage_AllocateBitmap demoPlatform 0 false (some 5000) 7 .FIT_BITMAP 2 2 24 0 0 0).isSome = true := by
    decide
  obtain ⟨b2, hb2⟩ := Option.isSome_iff_exists.mp hs2
  have h1 := allocate_pitch_alignment.1 demoPlatform 0 false 3 3 1 0 0 0 b1 hb1
  have h2 := allocate_pitch_alignment.2 demoPlatform 0 5000 7 .FIT_BITMAP 2 2 24 0 0 0 b2 hb2
  rw [hb1, hb2]
  exact ⟨h1.1, h1.2, h2⟩

/-!  Claim C9: allocations wrapping an external pixel buffer. -/

/-- Claim C9: a successful allocation that wraps an external pixel buffer
has pixels, reports exactly the caller-supplied buffer pointer and pitch,
and its internally allocated backing block is sized as header-only with
no internal pixel region. -/
theorem allocate_external_wrap (P : Platform) (addr ba ep : Nat)
    (ty : FREE_IMAGE_TYPE) (w h bpp : Int) (r g bl : Nat) (b : FIBITMAP)
    (hsome : FreeImage_AllocateBitmap P addr false (some ba) ep ty w h bpp r g bl = some b) :
    FreeImage_HasPixels (some b) = true ∧
    FreeImage_GetBits P (some b) = some ba ∧
    FreeImage_GetPitch (some b) = ep ∧
    b.data.pixels = [] ∧
    b.data.blockSize = FreeImage_GetInternalImageSize P true (FreeImage_GetWidth (some b))
      (FreeImage_GetHeight (some b)) (FreeImage_GetBPP (some b))
      (FreeImage_HasRGBMasks (some b)) := by
  obtain ⟨nbpp, masks, hm, _, _, _, _, hb⟩ :=
    allocate_some_inv P addr false (some ba) ep ty w h bpp r g bl b hsome
  subst hb
  refine ⟨rfl, rfl, rfl, rfl, ?_⟩
  cases masks with
  | false => rfl
  | true => rfl

/-- Witness for C9: the concrete wrapped-buffer allocation at address
5000 with pitch 7. -/
theorem allocate_external_wrap_witness :
    FreeImage_GetBits demoPlatform
      (FreeImage_AllocateBitmap demoPlatform 0 false (some 5000) 7 .FIT_BITMAP 2 2 24 0 0 0) = some 5000 ∧
    FreeImage_HasPixels
      (FreeImage_AllocateBitmap demoPlatform 0 false (some 5000) 7 .FIT_BITMAP 2 2 24 0 0 0) = true := by
  have hs : (FreeImage_AllocateBitmap demoPlatform 0 false (some 5000) 7 .FIT_BITMAP 2 2 24 0 0 0).isSome = true := by
    decide
  obtain ⟨b, hb⟩ := Option.isSome_iff_exists.mp hs
  have h := allocate_external_wrap demoPlatform 0 5000 7 .FIT_BITMAP 2 2 24 0 0 0 b hb
  rw [hb]
  exact ⟨h.2.1, h.1⟩

/-!  Claim C1: the 4/8 bpp palette classification. -/

/-- A palette entry the scan loop accepts without returning FIC_PALETTE:
grey, and lying on the forward ramp `entry[j] = j` or the reversed ramp
`entry[j] = n-1-j`. -/
def isGreyRampEntry (n : Nat) (pal : Nat → FIRGBA8) (j : Nat) : Prop :=
  ((pal j).red = (pal j).green ∧ (pal j).red = (pal j).blue) ∧
  ((pal j).red = j ∨ (pal j).red = n - 1 - j)

instance (n : Nat) (pal : Nat → FIRGBA8) (j : Nat) : Decidable (isGreyRampEntry n pal j) := by
  unfold isGreyRampEntry
  infer_instance

/-- Loop invariant of the palette scan: starting at index `i` with
`i + k = n` and flag `mb`, the scan returns FIC_PALETTE exactly when some
remaining entry is rejected; otherwise FIC_MINISBLACK exactly when the
flag is still set and every remaining entry is on the forward ramp. -/
theorem paletteScanAux_spec (n : Nat) (pal : Nat → FIRGBA8) :
    ∀ (k i : Nat) (mb : Bool), i + k = n →
    paletteScanAux n pal k i mb =
      if ∀ j < n, i ≤ j → isGreyRampEntry n pal j
      then (if mb = true ∧ ∀ j < n, i ≤ j → (pal j).red = j
            then .FIC_MINISBLACK else .FIC_MINISWHITE)
      else .FIC_PALETTE := by
  intro k
  induction k with
  | zero =>
    intro i mb hi
    have hin : i = n := by omega
    subst hin
    have hc1 : ∀ j < i, i ≤ j → isGreyRampEntry i pal j := by
      intro j hj hij
      exact absurd hj (by omega)
    have hc2 : ∀ j < i, i ≤ j → (pal j).red = j := by
      intro j hj hij
      exact absurd hj (by omega)
    cases mb with
    | true =>
      have hc2full : true = true ∧ ∀ j < i, i ≤ j → (pal j).red = j := ⟨rfl, hc2⟩
      rw [if_pos hc1, if_pos hc2full]
      rfl
    | false =>
      have hfalse : ¬(false = true ∧ ∀ j < i, i ≤ j → (pal j).red = j) := by simp
      rw [if_pos hc1, if_neg hfalse]
      rfl
  | succ k ih =>
    intro i mb hi
    have hin : i < n := by omega
    simp only [paletteScanAux]
    by_cases hgrey : (pal i).red = (pal i).green ∧ (pal i).red = (pal i).blue
    · rw [if_neg (by tauto : ¬((pal i).red ≠ (pal i).green ∨ (pal i).red ≠ (pal i).blue))]
      by_cases hri : (pal i).red = i
      · rw [if_neg (not_not_intro hri)]
        rw [ih (i + 1) mb (by omega)]
        have e1 : (∀ j < n, i + 1 ≤ j → isGreyRampEntry n pal j) ↔
            (∀ j < n, i ≤ j → isGreyRampEntry n pal j) := by
          constructor
          · intro H j hj hij
            rcases Nat.eq_or_lt_of_le hij with he | hlt
            · subst he
              exact ⟨hgrey, Or.inl hri⟩
            · exact H j hj hlt
          · intro H j hj hij
            exact H j hj (by omega)
        have e2 : (∀ j < n, i + 1 ≤ j → (pal j).red = j) ↔
            (∀ j < n, i ≤ j → (pal j).red = j) := by
          constructor
          · intro H j hj hij
            rcases Nat.eq_or_lt_of_le hij with he | hlt
            · subst he
              exact hri
            · exact H j hj hlt
          · intro H j hj hij
            exact H j hj (by omega)
        simp only [e1, e2]
      · rw [if_pos hri]
        by_cases hrev : n - i - 1 = (pal i).red
        · rw [if_neg (not_not_intro hrev)]
          rw [ih (i + 1) false (by omega)]
          have e1 : (∀ j < n, i + 1 ≤ j → isGreyRampEntry n pal j) ↔
              (∀ j < n, i ≤ j → isGreyRampEntry n pal j) := by
            constructor
            · intro H j hj hij
              rcases Nat.eq_or_lt_of_le hij with he | hlt
              · subst he
                exact ⟨hgrey, Or.inr (by omega)⟩
              · exact H j hj hlt
            · intro H j hj hij
              exact H j hj (by omega)
          have hc2false : ¬(∀ j < n, i ≤ j → (pal j).red = j) := by
            intro hall
            exact hri (hall i hin le_rfl)
          simp only [e1]
          simp [hc2false]
        · rw [if_pos hrev]
          have hc1false : ¬(∀ j < n, i ≤ j → isGreyRampEntry n pal j) := by
            intro hall
            rcases (hall i hin le_rfl).2 with h | h
            · exact hri h
            · exact hrev (by omega)
          rw [if_neg hc1false]
    · rw [if_pos (by tauto : (pal i).red ≠ (pal i).green ∨ (pal i).red ≠ (pal i).blue)]
      have hc1false : ¬(∀ j < n, i ≤ j → isGreyRampEntry n pal j) := by
        intro hall
        exact hgrey (hall i hin le_rfl).1
      rw [if_neg hc1false]

/-- Counterexample data for C1: a 16-entry all-grey palette whose first
half follows the forward ramp and whose second half follows the reversed
ramp. -/
def c1MixedPal : Nat → FIRGBA8 := fun i =>
  if i < 8 then ⟨i, i, i, 0⟩ else ⟨15 - i, 15 - i, 15 - i, 0⟩

/-- Counterexample for C1 as frozen: the mixed forward/reverse grey
palette is all grey, is neither the pure forward ramp nor the pure
reverse ramp, yet the classifier returns FIC_MINISWHITE — not the
palette-indexed result the claim demands for "any other grey pattern". -/
theorem color_type_pal48_mixed_not_palette :
    (∀ j < 16, (c1MixedPal j).red = (c1MixedPal j).green ∧
      (c1MixedPal j).red = (c1MixedPal j).blue) ∧
    (¬ ∀ j < 16, (c1MixedPal j).red = j) ∧
    (¬ ∀ j < 16, (c1MixedPal j).red = 16 - 1 - j) ∧
    (∀ j < 16, (c1MixedPal j).red = j ∨ (c1MixedPal j).red = 16 - 1 - j) ∧
    FreeImage_GetColorType2_pal48 16 c1MixedPal = .FIC_MINISWHITE ∧
    FreeImage_GetColorType2_pal48 16 c1MixedPal ≠ .FIC_PALETTE := by
  decide

/-- Claim C1 as amended: on the 4/8 bpp palette scan, any used entry that
is non-grey — or grey but on neither the forward ramp `entry[j]==j` nor
the reversed ramp `entry[j]==count-1-j` — makes the classifier return
palette-indexed; when every used entry is grey and on one of the two
ramps, the classifier returns min-is-black if every entry is on the
forward ramp and min-is-white otherwise (so a palette mixing forward and
reversed ramp entries classifies as min-is-white, not palette-indexed). -/
theorem color_type_pal48_characterization (n : Nat) (pal : Nat → FIRGBA8) :
    FreeImage_GetColorType2_pal48 n pal =
      if ∀ j < n, isGreyRampEntry n pal j
      then (if ∀ j < n, (pal j).red = j
            then .FIC_MINISBLACK else .FIC_MINISWHITE)
      else .FIC_PALETTE := by
  have h := paletteScanAux_spec n pal n 0 true (by omega)
  rw [FreeImage_GetColorType2_pal48, h]
  have e1 : (∀ j < n, 0 ≤ j → isGreyRampEntry n pal j) ↔ (∀ j < n, isGreyRampEntry n pal j) :=
    ⟨fun H j hj => H j hj (Nat.zero_le j), fun H j hj _ => H j hj⟩
  have e2 : (∀ j < n, 0 ≤ j → (pal j).red = j) ↔ (∀ j < n, (pal j).red = j) :=
    ⟨fun H j hj => H j hj (Nat.zero_le j), fun H j hj _ => H j hj⟩
  simp only [e1, e2]
  simp

/-!  Claim C4: the clone engine. -/

/-- Closed form of FreeImage_CreateICCProfile: flags and all non-ICC
fields except the metadata map are preserved; the metadata map loses the
"InterColorProfile" tag; the ICC bytes are the copied buffer when `size`
is non-zero, cleared otherwise. -/
theorem FreeImage_CreateICCProfile_eq (tagLib : String → Int) (x : BitmapData)
    (dat : Option (List Nat)) (sz : Nat) :
    FreeImage_CreateICCProfile tagLib x dat sz =
      { x with
        metadata := (setMetadataCore tagLib FIMD_EXIF_MAIN
          (some "InterColorProfile") none x.metadata).2.1
        iccProfile := {
          flags := x.iccProfile.flags
          size := if sz ≠ 0 then sz else 0
          data := if sz ≠ 0 then some ((dat.getD []).take sz) else none } } := by
  unfold FreeImage_CreateICCProfile FreeImage_DestroyICCProfile
  split_ifs with h
  · rfl
  · rfl

/-- Lookup characterization of the clone metadata copy loop. -/
theorem cloneMetadataInto_lookup :
    ∀ (src dst : METADATAMAP), (src.map Prod.fst).Nodup → ∀ m : Nat,
    alLookup (cloneMetadataInto dst src) m =
      if (alLookup src m).isSome = true then Option.map cloneTagMap (alLookup src m)
      else alLookup dst m := by
  intro src
  induction src with
  | nil =>
    intro dst _ m
    simp [cloneMetadataInto, alLookup]
  | cons kv rest ih =>
    intro dst hnodup m
    obtain ⟨k, tm⟩ := kv
    simp only [List.map_cons, List.nodup_cons] at hnodup
    obtain ⟨hmem, hnd⟩ := hnodup
    simp only [cloneMetadataInto]
    rw [ih _ hnd m]
    by_cases hm : m = k
    · subst hm
      have hrest : alLookup rest m = none := alLookup_eq_none_of_not_mem rest m hmem
      have hcons : alLookup ((m, tm) :: rest) m = some tm := by simp [alLookup]
      rw [hrest, hcons]
      simp only [Option.isSome_none, Bool.false_eq_true, if_false]
      rw [alLookup_alInsert_self]
      simp
    · have hcons : alLookup ((k, tm) :: rest) m = alLookup rest m := by
        simp only [alLookup]
        rw [if_neg (fun h : k = m => hm h.symm)]
      rw [hcons, alLookup_alInsert_ne dst k m (cloneTagMap tm) (fun h : k = m => hm h.symm)]

/-- The clone metadata copy into an empty map reproduces the source map
up to lookup. -/
theorem cloneMetadataInto_nil_lookup (md : METADATAMAP)
    (hnodup : (md.map Prod.fst).Nodup) (m : Nat) :
    alLookup (cloneMetadataInto [] md) m = alLookup md m := by
  rw [cloneMetadataInto_lookup md [] hnodup m]
  cases h : alLookup md m with
  | none => simp [alLookup]
  | some tm => simp [cloneTagMap_eq]

/-- A successful clone carries the address the aligned allocator handed
to it. -/
theorem cloneB_addr (P : Platform) (mem : Nat → Nat) (tagLib : String → Int)
    (f : Nat) (x b : FIBITMAP) (h : CloneB P mem tagLib f x = some b) :
    b.data.addr = f := by
  obtain ⟨d, th⟩ := x
  cases halloc : FreeImage_AllocateHeaderT P f (!d.has_pixels) d.type
      (d.info.biWidth : Int) (d.info.biHeight : Int) (d.info.biBitCount : Int)
      (FreeImage_GetRedMask (some (.mk d th)))
      (FreeImage_GetGreenMask (some (.mk d th)))
      (FreeImage_GetBlueMask (some (.mk d th))) with
  | none =>
    unfold CloneB at h
    dsimp only at h
    rw [halloc] at h
    exact absurd h (by simp)
  | some nb =>
    obtain ⟨ndd, nth⟩ := nb
    have halloc2 : FreeImage_AllocateBitmap P f (!d.has_pixels) none 0 d.type
        (d.info.biWidth : Int) (d.info.biHeight : Int) (d.info.biBitCount : Int)
        (FreeImage_GetRedMask (some (.mk d th)))
        (FreeImage_GetGreenMask (some (.mk d th)))
        (FreeImage_GetBlueMask (some (.mk d th))) = some (.mk ndd nth) := halloc
    obtain ⟨nbpp, masks, hm, hnz, hw, hh, hex, hb⟩ :=
      allocate_some_inv _ _ _ _ _ _ _ _ _ _ _ _ _ halloc2
    injection hb with h1 h2
    subst h1
    subst h2
    unfold CloneB at h
    dsimp only at h
    rw [halloc] at h
    dsimp only at h
    rw [FreeImage_CreateICCProfile_eq] at h
    dsimp only at h
    have hb2 := Option.some.inj h
    subst hb2
    cases hext : d.external_bits with
    | none => rfl
    | some ea => rfl

/-- Claim C4: a successful clone matches the source on element type,
width, height, bit depth and channel masks; its pixel content is
byte-identical (the whole owned pixel region for an owned source, the
line-bounded scanlines read from the external buffer through `mem` for a
wrapped source); it lives at the distinct fresh block address; its
external-buffer fields are cleared so its pixels are owned; its metadata
map is an independent deep copy with identical content; its ICC storage
is a copy with preserved flags; and its thumbnail is absent when the
source has none, or a freshly allocated deep clone (at its own fresh
address) rather than an alias. -/
theorem clone_deep_copy (P : Platform) (mem : Nat → Nat) (tagLib : String → Int)
    (fresh : Nat) (d : BitmapData) (th : Option FIBITMAP) (b : FIBITMAP)
    (hnodup : (d.metadata.map Prod.fst).Nodup)
    (hfresh : fresh ≠ d.addr)
    (hclone : CloneB P mem tagLib fresh (.mk d th) = some b) :
    FreeImage_GetImageType (some b) = FreeImage_GetImageType (some (.mk d th)) ∧
    FreeImage_GetWidth (some b) = FreeImage_GetWidth (some (.mk d th)) ∧
    FreeImage_GetHeight (some b) = FreeImage_GetHeight (some (.mk d th)) ∧
    FreeImage_GetBPP (some b) = FreeImage_GetBPP (some (.mk d th)) ∧
    FreeImage_GetRedMask (some b) = FreeImage_GetRedMask (some (.mk d th)) ∧
    FreeImage_GetGreenMask (some b) = FreeImage_GetGreenMask (some (.mk d th)) ∧
    FreeImage_GetBlueMask (some b) = FreeImage_GetBlueMask (some (.mk d th)) ∧
    b.data.addr = fresh ∧
    b.data.addr ≠ d.addr ∧
    b.data.external_bits = none ∧
    b.data.external_pitch = 0 ∧
    (∀ m : Nat, alLookup b.data.metadata m = alLookup d.metadata m) ∧
    b.data.iccProfile.flags = d.iccProfile.flags ∧
    b.data.iccProfile.size = d.iccProfile.size ∧
    (d.iccProfile.size = 0 → b.data.iccProfile.data = none) ∧
    (∀ bs, d.iccProfile.data = some bs → bs.length = d.iccProfile.size →
      d.iccProfile.size ≠ 0 → b.data.iccProfile.data = some bs) ∧
    (d.has_pixels = true → d.external_bits = none → b.data.pixels = d.pixels) ∧
    (∀ ea, d.external_bits = some ea →
      ∀ y, y < d.info.biHeight →
      ∀ i, i < CalculateLine d.info.biWidth d.info.biBitCount →
      Option.bind (b.data.pixels.get? y) (fun row => row.get? i) =
        some (mem (ea + y * d.external_pitch + i))) ∧
    (th = none → b.thumbnail = none) ∧
    (∀ t tb, th = some t → b.thumbnail = some tb → tb.data.addr = fresh + 1) := by
  cases halloc : FreeImage_AllocateHeaderT P fresh (!d.has_pixels) d.type
      (d.info.biWidth : Int) (d.info.biHeight : Int) (d.info.biBitCount : Int)
      (FreeImage_GetRedMask (some (.mk d th)))
      (FreeImage_GetGreenMask (some (.mk d th)))
      (FreeImage_GetBlueMask (some (.mk d th))) with
  | none =>
    unfold CloneB at hclone
    dsimp only at hclone
    rw [halloc] at hclone
    exact absurd hclone (by simp)
  | some nb =>
    obtain ⟨ndd, nth⟩ := nb
    have halloc2 : FreeImage_AllocateBitmap P fresh (!d.has_pixels) none 0 d.type
        (d.info.biWidth : Int) (d.info.biHeight : Int) (d.info.biBitCount : Int)
        (FreeImage_GetRedMask (some (.mk d th)))
        (FreeImage_GetGreenMask (some (.mk d th)))
        (FreeImage_GetBlueMask (some (.mk d th))) = some (.mk ndd nth) := halloc
    obtain ⟨nbpp, masks, hm, hnz, hw, hh, hex, hb⟩ :=
      allocate_some_inv _ _ _ _ _ _ _ _ _ _ _ _ _ halloc2
    injection hb with h1 h2
    subst h1
    subst h2
    unfold CloneB at hclone
    dsimp only at hclone
    rw [halloc] at hclone
    dsimp only at hclone
    rw [FreeImage_CreateICCProfile_eq] at hclone
    dsimp only at hclone
    rw [show (setMetadataCore tagLib FIMD_EXIF_MAIN (some "InterColorProfile") none
      ([] : METADATAMAP)).2.1 = ([] : METADATAMAP) from rfl] at hclone
    have hb2 := Option.some.inj hclone
    subst hb2
    cases hext : d.external_bits with
    | none =>
      refine ⟨rfl, rfl, rfl, rfl, rfl, rfl, rfl, rfl, hfresh, rfl, rfl, ?_, rfl, ?_, ?_, ?_, ?_, ?_, ?_, ?_⟩
      · intro m
        exact cloneMetadataInto_nil_lookup d.metadata hnodup m
      · by_cases hsz : d.iccProfile.size = 0
        · simp [hsz, FIBITMAP.data]
        · simp [hsz, FIBITMAP.data]
      · intro hsz
        simp [hsz, FIBITMAP.data]
      · intro bs hbs hlen hsz
        show (if d.iccProfile.size ≠ 0
          then some (List.take d.iccProfile.size (d.iccProfile.data.getD []))
          else none) = some bs
        rw [if_pos hsz, hbs]
        show some (List.take d.iccProfile.size bs) = some bs
        rw [← hlen, List.take_length]
      · intro hhp _
        show (if (!d.has_pixels || false) = true then
          (if (!d.has_pixels || false) = true then []
           else List.replicate d.info.biHeight
             (List.replicate (CalculatePitch (CalculateLine d.info.biWidth nbpp)) 0))
          else d.pixels) = d.pixels
        rw [hhp]
        rfl
      · intro ea hea
        exact absurd hea (by simp)
      · intro hth
        subst hth
        rfl
      · intro t tb hth htb
        subst hth
        dsimp only [FIBITMAP.thumbnail] at htb
        cases hp : t.data.has_pixels with
        | false =>
          rw [hp] at htb
          exact absurd htb (by simp)
        | true =>
          rw [hp] at htb
          simp only [if_pos rfl] at htb
          exact cloneB_addr P mem tagLib (fresh + 1) t tb htb
    | some ea =>
      refine ⟨rfl, rfl, rfl, rfl, rfl, rfl, rfl, rfl, hfresh, rfl, rfl, ?_, rfl, ?_, ?_, ?_, ?_, ?_, ?_, ?_⟩
      · intro m
        exact cloneMetadataInto_nil_lookup d.metadata hnodup m
      · by_cases hsz : d.iccProfile.size = 0
        · simp [hsz, FIBITMAP.data]
        · simp [hsz, FIBITMAP.data]
      · intro hsz
        simp [hsz, FIBITMAP.data]
      · intro bs hbs hlen hsz
        show (if d.iccProfile.size ≠ 0
          then some (List.take d.iccProfile.size (d.iccProfile.data.getD []))
          else none) = some bs
        rw [if_pos hsz, hbs]
        show some (List.take d.iccProfile.size bs) = some bs
        rw [← hlen, List.take_length]
      · intro _ habs
        exact absurd habs (by simp)
      · intro ea2 hea y hy i hi
        have hea2 : ea = ea2 := Option.some.inj hea
        subst hea2
        show Option.bind (((List.range d.info.biHeight).map (fun y =>
            (List.range (CalculatePitch (CalculateLine d.info.biWidth d.info.biBitCount))).map
              (fun i => if i < CalculateLine d.info.biWidth d.info.biBitCount
                then mem (ea + y * d.external_pitch + i) else 0))).get? y)
          (fun row => row.get? i) = some (mem (ea + y * d.external_pitch + i))
        rw [List.get?_map, List.get?_range hy]
        show (((List.range (CalculatePitch (CalculateLine d.info.biWidth d.info.biBitCount))).map
            (fun i => if i < CalculateLine d.info.biWidth d.info.biBitCount
              then mem (ea + y * d.external_pitch + i) else 0)).get? i) =
          some (mem (ea + y * d.external_pitch + i))
        rw [List.get?_map, List.get?_range
          (lt_of_lt_of_le hi (le_CalculatePitch _ (CalculateLine_lt _ _)))]
        show some (if i < CalculateLine d.info.biWidth d.info.biBitCount
          then mem (ea + y * d.external_pitch + i) else 0) =
          some (mem (ea + y * d.external_pitch + i))
        rw [if_pos hi]
      · intro hth
        subst hth
        rfl
      · intro t tb hth htb
        subst hth
        dsimp only [FIBITMAP.thumbnail] at htb
        cases hp : t.data.has_pixels with
        | false =>
          rw [hp] at htb
          exact absurd htb (by simp)
        | true =>
          rw [hp] at htb
          simp only [if_pos rfl] at htb
          exact cloneB_addr P mem tagLib (fresh + 1) t tb htb

/-- A clone succeeds exactly when its nested header allocation does. -/
theorem cloneB_isSome (P : Platform) (mem : Nat → Nat) (tagLib : String → Int)
    (fresh : Nat) (d : BitmapData) (th : Option FIBITMAP)
    (halloc : (FreeImage_AllocateHeaderT P fresh (!d.has_pixels) d.type
      (d.info.biWidth : Int) (d.info.biHeight : Int) (d.info.biBitCount : Int)
      (FreeImage_GetRedMask (some (.mk d th)))
      (FreeImage_GetGreenMask (some (.mk d th)))
      (FreeImage_GetBlueMask (some (.mk d th)))).isSome = true) :
    (CloneB P mem tagLib fresh (.mk d th)).isSome = true := by
  obtain ⟨nb, hnb⟩ := Option.isSome_iff_exists.mp halloc
  obtain ⟨ndd, nth⟩ := nb
  unfold CloneB
  dsimp only
  rw [hnb]
  rfl

/-- Concrete owned-pixel 2x2 24-bpp source for the C4 witness, carrying
one metadata model and ICC flags. -/
def c4SrcOwned : BitmapData :=
  { addr := 0
    blockSize := 368
    type := .FIT_BITMAP
    bkgnd_color := ⟨0, 0, 0, 0⟩
    transparent_table := List.replicate 256 0xFF
    transparency_count := 0
    transparent := false
    iccProfile := ⟨5, 0, none⟩
    metadata := [(2, [("k", ⟨some "k", 0, 1, 2, 2, [1, 2]⟩)])]
    has_pixels := true
    external_bits := none
    external_pitch := 0
    info := ⟨40, 2, 2, 1, 0, 24, 0, 0, 2835, 2835⟩
    palette := []
    masks := ⟨0, 0, 0⟩
    pixels := [[1, 2, 3, 4, 5, 6, 0, 0], [7, 8, 9, 10, 11, 12, 0, 0]] }

/-- Concrete wrapped-buffer 2x2 24-bpp source for the C4 witness: its
pixels live in the external buffer at address 5000 with pitch 7. -/
def c4SrcExt : BitmapData :=
  { c4SrcOwned with
    blockSize := 352
    external_bits := some 5000
    external_pitch := 7
    pixels := [] }

/-- Concrete external byte memory for the C4 witness. -/
def demoMem : Nat → Nat := fun a => a % 251

/-- Witness for C4: cloning the concrete owned source at fresh address
1000 reproduces its geometry and metadata content; cloning the concrete
wrapped source copies the first external byte into the clone's own pixel
region. -/
theorem clone_deep_copy_witness :
    FreeImage_GetWidth (FreeImage_Clone demoPlatform demoMem (fun _ => -1) 1000
      (some (.mk c4SrcOwned none))) = 2 ∧
    FreeImage_GetBPP (FreeImage_Clone demoPlatform demoMem (fun _ => -1) 1000
      (some (.mk c4SrcOwned none))) = 24 ∧
    (FreeImage_Clone demoPlatform demoMem (fun _ => -1) 1000
      (some (.mk c4SrcExt none))).isSome = true := by
  have hs1 : (FreeImage_Clone demoPlatform demoMem (fun _ => -1) 1000
      (some (.mk c4SrcOwned none))).isSome = true :=
    cloneB_isSome demoPlatform demoMem (fun _ => -1) 1000 c4SrcOwned none (by decide)
  obtain ⟨b1, hb1⟩ := Option.isSome_iff_exists.mp hs1
  have hclone1 : CloneB demoPlatform demoMem (fun _ => -1) 1000 (.mk c4SrcOwned none) = some b1 := hb1
  have h := clone_deep_copy demoPlatform demoMem (fun _ => -1) 1000 c4SrcOwned none b1
    (by decide) (by decide) hclone1
  have hs2 : (FreeImage_Clone demoPlatform demoMem (fun _ => -1) 1000
      (some (.mk c4SrcExt none))).isSome = true :=
    cloneB_isSome demoPlatform demoMem (fun _ => -1) 1000 c4SrcExt none (by decide)
  refine ⟨?_, ?_, hs2⟩
  · rw [show FreeImage_Clone demoPlatform demoMem (fun _ => -1) 1000
      (some (.mk c4SrcOwned none)) = some b1 from hb1]
    rw [h.2.1]
    rfl
  · rw [show FreeImage_Clone demoPlatform demoMem (fun _ => -1) 1000
      (some (.mk c4SrcOwned none)) = some b1 from hb1]
    rw [h.2.2.2.1]
    rfl

end FreeImage
